import Mathlib

/- Shallow embedding of src/ai-generators/build_public_pages.py: string and
value utilities, the field-alias resolution engine, the composite
synthesizers (address, hours, map links, titles, bullets), the record
loader, the page assemblers and the build orchestrator, followed by
theorems settling the specification claims against this embedding.
Python values are modelled by the inductive `Value` (floats as rationals),
the file system and environment by the abstract `Ctx` record, and a build
run is the pure function `mainBuild : Ctx → PyTime → Int × writes`. -/

/-- Single-quote character (ASCII 39), used when assembling HTML strings. -/
def sqt : String := String.singleton (Char.ofNat 39)

/-- Whitespace characters recognised by Python str.strip and the regex
class \s: space, tab, newline, carriage return, vertical tab, form feed. -/
def isPySpace (c : Char) : Bool :=
  c.toNat = 32 || c.toNat = 9 || c.toNat = 10 || c.toNat = 13 || c.toNat = 11 || c.toNat = 12

/-- ASCII digit test (the decimal digits accepted by int(), float() and the
regex class \d on this data). -/
def isAsciiDigit (c : Char) : Bool :=
  48 ≤ c.toNat && c.toNat ≤ 57

/-- Models Python str.strip(). -/
def stripStr (s : String) : String :=
  String.mk (((s.data.dropWhile isPySpace).reverse.dropWhile isPySpace).reverse)

/-- Models Python str.lower() on the ASCII range. -/
def lowerStr (s : String) : String :=
  String.mk (s.data.map Char.toLower)

/-- Structural prefix test (Python str.startswith). -/
def sStartsWith (s pre : String) : Bool :=
  s.data.take pre.data.length == pre.data

/-- Structural suffix test (Python str.endswith). -/
def sEndsWith (s suf : String) : Bool :=
  s.data.reverse.take suf.data.length == suf.data.reverse

/-- Whether the character occurs in the string. -/
def sContainsChar (s : String) (c : Char) : Bool :=
  s.data.any (fun x => x == c)

/-- Worker for `sReplace`: non-overlapping left-to-right replacement, the
fuel bounding the number of steps by the text length. -/
def replaceFuel (pat rep : List Char) : Nat → List Char → List Char
  | 0, cs => cs
  | _ + 1, [] => []
  | fuel + 1, c :: cs =>
    if (c :: cs).take pat.length == pat then
      rep ++ replaceFuel pat rep fuel ((c :: cs).drop pat.length)
    else c :: replaceFuel pat rep fuel cs

/-- Models Python str.replace (all occurrences, left to right); an empty
pattern leaves the string unchanged (never used with one here). -/
def sReplace (s pat rep : String) : String :=
  if pat.data.isEmpty then s
  else String.mk (replaceFuel pat.data rep.data s.data.length s.data)

/-- Worker for `sSplitOn`, fuel bounding the steps by the text length. -/
def splitFuel (sep : List Char) : Nat → List Char → List Char → List (List Char)
  | 0, acc, cs => [acc.reverse ++ cs]
  | _ + 1, acc, [] => [acc.reverse]
  | fuel + 1, acc, c :: cs =>
    if (c :: cs).take sep.length == sep then
      acc.reverse :: splitFuel sep fuel [] ((c :: cs).drop sep.length)
    else splitFuel sep fuel (c :: acc) cs

/-- Models Python str.split(sep) for a non-empty separator. -/
def sSplitOn (s sep : String) : List String :=
  if sep.data.isEmpty then [s]
  else (splitFuel sep.data (s.data.length + 1) [] s.data).map String.mk

/-- Python string comparison on character lists (code-point
lexicographic). -/
def strLtB : List Char → List Char → Bool
  | [], [] => false
  | [], _ :: _ => true
  | _ :: _, [] => false
  | a :: as, b :: bs => a.toNat < b.toNat || (a == b && strLtB as bs)

/-- Python `x < y` on strings. -/
def strLt (x y : String) : Bool :=
  strLtB x.data y.data

/-- Character-level worker for `titleCase`; the flag records whether the
previous character was alphabetic. -/
def titleCaseChars : List Char → Bool → List Char
  | [], _ => []
  | c :: cs, prevAlpha =>
    (if c.isAlpha then (if prevAlpha then c.toLower else c.toUpper) else c)
      :: titleCaseChars cs c.isAlpha

/-- Models Python str.title(): the first letter of every alphabetic run is
upper-cased, the rest lower-cased. -/
def titleCase (s : String) : String :=
  String.mk (titleCaseChars s.data false)

/-- Worker for `containsSub`: does `needle` start at some position of the
haystack? -/
def containsSubAux (needle : List Char) : List Char → Bool
  | [] => needle.isEmpty
  | c :: cs => ((c :: cs).take needle.length == needle) || containsSubAux needle cs

/-- Whether `sub` occurs inside `s` (used only in theorem statements). -/
def containsSub (s sub : String) : Bool :=
  containsSubAux sub.data s.data

/-- Models Python `s.split(sep, 1)[-1]`, and equally `s.split(sep, 1)[1]`
when the separator is known to occur: everything after the first
occurrence of the separator, or the whole string if it does not occur. -/
def pySplitOnceTail (s : String) (sep : String) : String :=
  match sSplitOn s sep with
  | [] => s
  | [x] => x
  | _ :: rest => String.intercalate sep rest

/-- Models Python escape_html on a string already known to be a str:
ampersand first, then the angle brackets. -/
def escapeHtmlStr (s : String) : String :=
  sReplace (sReplace (sReplace s ("&") ("&amp;")) ("<") ("&lt;")) (">") ("&gt;")

/-- Python values as loaded from JSON/YAML records: None, bool, int, float
(modelled as a rational), str, list, dict (association list in insertion
order, keys unique as in a Python dict). -/
inductive Value where
  | none
  | bool (b : Bool)
  | int (n : Int)
  | float (q : ℚ)
  | str (s : String)
  | list (xs : List Value)
  | dict (kvs : List (String × Value))

/-- First binding of key `k` in a dict, if any: Python `k in d` plus `d[k]`. -/
def Value.find? (v : Value) (k : String) : Option Value :=
  match v with
  | .dict kvs =>
    match kvs.find? (fun kv => kv.1 == k) with
    | some kv => some kv.2
    | Option.none => Option.none
  | _ => Option.none

/-- Models Python `d.get(k)`: the stored value, or None when missing. -/
def Value.get (v : Value) (k : String) : Value :=
  (v.find? k).getD .none

/-- Models Python `d.get(k, dflt)`. -/
def Value.getD (v : Value) (k : String) (dflt : Value) : Value :=
  (v.find? k).getD dflt

/-- Python truthiness of a value. -/
def truthy : Value → Bool
  | .none => false
  | .bool b => b
  | .int n => n != 0
  | .float q => q != 0
  | .str s => s != ""
  | .list xs => !xs.isEmpty
  | .dict kvs => !kvs.isEmpty

/-- Python `v == 0`: numeric zero and False compare equal to 0. -/
def eqZeroPy : Value → Bool
  | .bool b => !b
  | .int n => n == 0
  | .float q => q == 0
  | _ => false

/-- Python `x or y` on values. -/
def pyOr (a b : Value) : Value :=
  if truthy a then a else b

/-- Python `isinstance(v, (int, float))`: bool is a subclass of int. -/
def isNumPy : Value → Bool
  | .int _ => true
  | .float _ => true
  | .bool _ => true
  | _ => false

/-- Whether the value is a dict. -/
def Value.isDict : Value → Bool
  | .dict _ => true
  | _ => false

/-- Digit stream of the fractional part of a fraction num/den (num < den),
produced by long division, stopping at remainder zero or after `fuel`
digits. -/
def fracDigits : Nat → Nat → Nat → String
  | _, _, 0 => ""
  | num, den, fuel + 1 =>
    if num = 0 then ""
    else
      (String.singleton (Char.ofNat (48 + num * 10 / den)))
        ++ fracDigits (num * 10 % den) den fuel

/-- Models Python str()/repr() of a float on the rational float model:
sign, integer part, then fractional digits (".0" for whole numbers). -/
def floatRepr (q : ℚ) : String :=
  let sign := if q < 0 then "-" else ""
  let a : ℚ := |q|
  let ip : Nat := a.floor.toNat
  let fracNum : Nat := (a - (a.floor : ℚ)).num.toNat
  let fracDen : Nat := (a - (a.floor : ℚ)).den
  if fracNum = 0 then sign ++ toString ip ++ (".0")
  else sign ++ toString ip ++ (".") ++ fracDigits fracNum fracDen 17

mutual

/-- Models Python repr() of a value (string escaping inside repr is not
reproduced; record data in this code base never depends on it). -/
def pyRepr : Value → String
  | .none => "None"
  | .bool true => "True"
  | .bool false => "False"
  | .int n => toString n
  | .float q => floatRepr q
  | .str s => sqt ++ s ++ sqt
  | .list xs => "[" ++ pyReprList xs ++ "]"
  | .dict kvs => "\x7b" ++ pyReprKvs kvs ++ "\x7d"

/-- Comma-separated reprs of list elements. -/
def pyReprList : List Value → String
  | [] => ""
  | [v] => pyRepr v
  | v :: vs => pyRepr v ++ (", ") ++ pyReprList vs

/-- Comma-separated reprs of dict entries. -/
def pyReprKvs : List (String × Value) → String
  | [] => ""
  | [kv] => sqt ++ kv.1 ++ sqt ++ (": ") ++ pyRepr kv.2
  | kv :: kvs => sqt ++ kv.1 ++ sqt ++ (": ") ++ pyRepr kv.2 ++ (", ") ++ pyReprKvs kvs

end

/-- Display instance reusing the Python repr. -/
instance : Repr Value where
  reprPrec v _ := Std.Format.text (pyRepr v)

/-- Models Python str() of a value. -/
def pyStr : Value → String
  | .str s => s
  | v => pyRepr v

/-- Models _first_nonempty from build_public_pages.py: the first candidate
that is a non-blank string (returned stripped), a number or bool (returned
via str()), or a dict carrying a non-blank string under "@value"; empty
string when no candidate qualifies. -/
def firstNonempty : List Value → String
  | [] => ""
  | v :: vs =>
    match v with
    | .str s => if stripStr s = "" then firstNonempty vs else stripStr s
    | .int n => toString n
    | .bool b => if b then "True" else "False"
    | .float q => floatRepr q
    | .dict kvs =>
      match (Value.dict kvs).find? ("@value") with
      | some (.str s) => if stripStr s = "" then firstNonempty vs else stripStr s
      | _ => firstNonempty vs
    | _ => firstNonempty vs

/-- Models _as_list: a list becomes its stripped string items (blanks
dropped), a non-blank string is split on commas, everything else is empty. -/
def asList : Value → List String
  | .list xs => ((xs.map (fun x => stripStr (pyStr x))).filter (fun s => s ≠ ""))
  | .str s =>
    if stripStr s = "" then []
    else ((sSplitOn s (",")).map stripStr).filter (fun x => x ≠ "")
  | _ => []

/-- Basename of a posix path: the part after the last slash. -/
def basenameOf (p : String) : String :=
  (sSplitOn p ("/")).getLastD p

/-- Root part of os.path.splitext applied to a basename: drop the extension
at the last dot, unless every character before that dot is itself a dot. -/
def splitextRoot (name : String) : String :=
  let cs := name.data
  match (List.range cs.length).filter (fun i => cs.getD i ' ' = '.') with
  | [] => name
  | is =>
    let last := is.getLastD 0
    if (cs.take last).all (fun c => c = '.') then name
    else String.mk (cs.take last)

/-- Models _title_from_filename: basename without extension, hyphens and
underscores to spaces, stripped and title-cased. -/
def titleFromFilename (path : String) : String :=
  titleCase (stripStr (sReplace (sReplace (splitextRoot (basenameOf path)) ("-") (" ")) ("_") (" ")))

/-- The three words of the placeholder title pattern, as character lists. -/
def placeholderWords : List (List Char) :=
  [("service").data, ("item").data, ("entry").data]

/-- After the pattern word: optional whitespace then at least one digit,
consuming the rest of the string (models the regex tail \s*\d+ under
fullmatch). -/
def digitsTail (cs : List Char) : Bool :=
  let ds := cs.dropWhile isPySpace
  (!ds.isEmpty) && ds.all isAsciiDigit

/-- Models re.fullmatch(r"(service|item|entry)\s*\d+", t). -/
def patternHit (cs : List Char) : Bool :=
  placeholderWords.any (fun w => (cs.take w.length == w) && digitsTail (cs.drop w.length))

/-- The fixed blocklist of placeholder titles. -/
def placeholderBlock : List String :=
  [("service"), ("unnamed service"), ("untitled"), ("n/a"), ("na"), ("tbd")]

/-- Models _is_placeholder_title on the string call sites of the script:
blank titles, the fixed blocklist, and the "(service|item|entry)<spaces><digits>"
pattern are placeholders (the source also treats a non-string argument as a
placeholder; every call site passes a str). -/
def isPlaceholderTitle (s : String) : Bool :=
  if stripStr s = "" then true
  else
    let t := lowerStr (stripStr s)
    placeholderBlock.contains t || patternHit t.data

/-- Models _guess_description. -/
def guessDescription (obj : Value) : String :=
  firstNonempty [obj.get ("description"), obj.get ("summary"), obj.get ("details"),
    obj.get ("body"), obj.get ("content"), obj.get ("answer"), obj.get ("copy")]

/-- Models _guess_price. -/
def guessPrice (obj : Value) : String :=
  let p := firstNonempty [obj.get ("price"), obj.get ("price_range"),
    obj.get ("starting_price"), obj.get ("min_price"), obj.get ("cost"), obj.get ("fee")]
  if p = "" then "Contact for pricing" else p

/-- Order-preserving case-insensitive de-duplication worker used by
_bullet_points; `seen` carries the lower-cased strings already emitted. -/
def dedupLowerGo (seen : List String) : List String → List String
  | [] => []
  | b :: bs =>
    if seen.contains (lowerStr b) then dedupLowerGo seen bs
    else b :: dedupLowerGo (lowerStr b :: seen) bs

/-- Models _bullet_points: up to 3 features (or, when none, up to 3
specialties), an optional service-areas line over the first 5 areas,
case-insensitive de-duplication, and a cap of 4 bullets. -/
def bulletPoints (obj : Value) : List String :=
  let feats := asList (pyOr (obj.get ("features")) (pyOr (obj.get ("benefits")) (obj.get ("highlights"))))
  let specs := asList (pyOr (obj.get ("specialties")) (obj.get ("capabilities")))
  let areas := asList (pyOr (obj.get ("service_areas")) (pyOr (obj.get ("areas")) (obj.get ("locations_served"))))
  let bullets := feats.take 3
  let bullets := if bullets.isEmpty then specs.take 3 else bullets
  let bullets :=
    if areas.isEmpty then bullets
    else bullets ++ [("Service areas: ") ++ String.intercalate (", ") (areas.take 5)]
  (dedupLowerGo [] bullets).take 4

/-- Collapses each whitespace run to a single hyphen (second regex of
slugify). -/
def collapseSpacesToHyphen : List Char → List Char
  | [] => []
  | c :: cs =>
    if isPySpace c then '-' :: collapseSpacesToHyphen (cs.dropWhile isPySpace)
    else c :: collapseSpacesToHyphen cs
termination_by l => l.length
decreasing_by
  · exact Nat.lt_succ_of_le ((List.dropWhile_suffix _).sublist.length_le)
  · simp

/-- Models slugify on its string call site: keep ASCII alphanumerics,
whitespace and hyphens, lower-case and strip, whitespace runs to hyphens,
with the literal "item" for an empty result. -/
def slugify (text : String) : String :=
  if text = "" then "item"
  else
    let t1 := String.mk (text.data.filter (fun c => c.isAlphanum || isPySpace c || c = '-'))
    let t2 := String.mk (collapseSpacesToHyphen (lowerStr (stripStr t1)).data)
    if t2 = "" then "item" else t2

/-- The FIELD_ALIASES table. -/
def fieldAliases : String → List String
  | "entity_name" => [("entity_name"), ("organization"), ("org_name"), ("company"), ("name")]
  | "contact_person" => [("contact_person"), ("contact"), ("contact_name"), ("primary_contact"), ("attention")]
  | "email" => [("email"), ("contact_email"), ("email_address"), ("mail")]
  | "phone" => [("phone"), ("telephone"), ("tel"), ("phone_number"), ("contact_number")]
  | "address_street" => [("address_street"), ("streetAddress"), ("street"), ("address1"), ("address_line_1"), ("address_line")]
  | "address_city" => [("address_city"), ("city"), ("addressLocality")]
  | "address_state" => [("address_state"), ("state"), ("addressRegion"), ("province")]
  | "address_postal_code" => [("address_postal_code"), ("postalCode"), ("zip"), ("zipCode"), ("postcode")]
  | "hours" => [("hours"), ("openingHours"), ("opening_hours"), ("business_hours")]
  | "map_embed_url" => [("map_embed_url"), ("map"), ("map_iframe")]
  | "google_maps_url" => [("google_maps_url"), ("maps_url"), ("map_url")]
  | "latitude" => [("geo_latitude"), ("latitude"), ("lat")]
  | "longitude" => [("geo_longitude"), ("longitude"), ("lng"), ("lon")]
  | "website" => [("website"), ("url"), ("homepage")]
  | "sameAs" => [("sameAs"), ("same_as"), ("social"), ("social_links")]
  | _ => []

/-- Presence test used inside _alias_get: Python `d[k] or d[k] == 0`. -/
def presentPy (v : Value) : Bool :=
  truthy v || eqZeroPy v

/-- First key of the list whose stored value passes `presentPy`, returning
that value (the canonical-key check plus the alias loop of _alias_get). -/
def aliasFirst (d : Value) : List String → Option Value
  | [] => Option.none
  | k :: ks =>
    let v := d.get k
    if presentPy v then some v else aliasFirst d ks

/-- Models _alias_get: canonical key, then the declared aliases in order,
then the nested geo fallback for latitude/longitude and the nested
contactPoint fallback for phone/email; None otherwise. -/
def aliasGet (d : Value) (canon : String) : Value :=
  match d with
  | .dict _ =>
    (match aliasFirst d (canon :: fieldAliases canon) with
     | some v => v
     | Option.none =>
       if canon = ("latitude") ∨ canon = ("longitude") then
         match pyOr (d.get ("geo")) (.dict []) with
         | .dict gs => (Value.dict gs).get canon
         | _ => .none
       else if canon = ("phone") ∨ canon = ("email") then
         match pyOr (d.get ("contactPoint")) (d.get ("contact_point")) with
         | .dict cs =>
           if canon = ("phone") then
             .str (firstNonempty [(Value.dict cs).get ("telephone"), (Value.dict cs).get ("phone")])
           else .str (firstNonempty [(Value.dict cs).get ("email")])
         | _ => .none
       else .none)
  | _ => .none

/-- Models _format_address_from_components. -/
def formatAddressFromComponents (loc : Value) : String :=
  let line1 := firstNonempty [aliasGet loc ("address_street")]
  let line2 := firstNonempty [loc.get ("address2"), loc.get ("address_line_2"), loc.get ("suite")]
  let city := firstNonempty [aliasGet loc ("address_city")]
  let state := firstNonempty [aliasGet loc ("address_state")]
  let zipc := firstNonempty [aliasGet loc ("address_postal_code")]
  let citystate :=
    if city ≠ "" ∨ state ≠ "" then String.intercalate (", ") (([city, state]).filter (fun p => p ≠ ""))
    else ""
  stripStr (String.intercalate (" ") ((([line1, line2, citystate, zipc]).filter (fun p => p ≠ ""))))

/-- Models _format_address: a non-blank string is used verbatim (stripped),
a dict is composed from its own component keys, anything else falls back to
the owning record's components. -/
def formatAddress (addr : Value) (loc : Value) : String :=
  match addr with
  | .str s => if stripStr s ≠ "" then stripStr s else formatAddressFromComponents loc
  | .dict _ =>
    let line1 := firstNonempty [addr.get ("streetAddress"), addr.get ("address1"), addr.get ("addressLine1")]
    let line2 := firstNonempty [addr.get ("address2"), addr.get ("addressLine2"), addr.get ("suite")]
    let city := firstNonempty [addr.get ("addressLocality"), addr.get ("city")]
    let state := firstNonempty [addr.get ("addressRegion"), addr.get ("state")]
    let zipc := firstNonempty [addr.get ("postalCode"), addr.get ("zip"), addr.get ("zipCode")]
    let citystate :=
      if city ≠ "" ∨ state ≠ "" then String.intercalate (", ") (([city, state]).filter (fun p => p ≠ ""))
      else ""
    stripStr (String.intercalate (" ") ((([line1, line2, citystate, zipc]).filter (fun p => p ≠ ""))))
  | _ => formatAddressFromComponents loc

/-- One entry of the structured openingHoursSpecification list, rendered as
in _extract_hours; entries without a usable day or without any time are
dropped. The source's branch for a list-valued day token is unreachable,
because _first_nonempty skips lists and always returns a str. -/
def hoursRow (r : Value) : Option String :=
  match r with
  | .dict _ =>
    let day0 := firstNonempty [r.get ("dayOfWeek"), r.get ("day"), r.get ("weekday")]
    let day := if sContainsChar day0 '/' then (sSplitOn day0 ("/")).getLastD day0 else day0
    let opens := firstNonempty [r.get ("opens"), r.get ("openingTime")]
    let closes := firstNonempty [r.get ("closes"), r.get ("closingTime")]
    if day ≠ "" ∧ (opens ≠ "" ∨ closes ≠ "") then
      some (day ++ (": ") ++ (if opens = "" then "—" else opens) ++ (" – ")
        ++ (if closes = "" then "—" else closes))
    else Option.none
  | _ => Option.none

/-- Models _extract_hours: a direct hours-family field wins; otherwise the
structured list is rendered row by row and joined with "; "; empty string
when neither yields anything. -/
def extractHours (loc : Value) : String :=
  let hours := firstNonempty [aliasGet loc ("hours")]
  if hours ≠ "" then hours
  else
    match pyOr (loc.get ("openingHoursSpecification")) (loc.get ("opening_hours_specification")) with
    | .list rs =>
      if rs.isEmpty then ""
      else
        let rows := rs.filterMap hoursRow
        if rows.isEmpty then "" else String.intercalate ("; ") rows
    | _ => ""

/-- UTF-8 bytes of a character. -/
def utf8Bytes (c : Char) : List Nat :=
  let n := c.toNat
  if n < 128 then [n]
  else if n < 2048 then [192 + n / 64, 128 + n % 64]
  else if n < 65536 then [224 + n / 4096, 128 + (n / 64) % 64, 128 + n % 64]
  else [240 + n / 262144, 128 + (n / 4096) % 64, 128 + (n / 64) % 64, 128 + n % 64]

/-- Upper-case hexadecimal digit. -/
def hexDigit (n : Nat) : Char :=
  if n < 10 then Char.ofNat (48 + n) else Char.ofNat (55 + n)

/-- Percent-encoding of one byte. -/
def pctEncode (b : Nat) : String :=
  ("%") ++ String.singleton (hexDigit (b / 16)) ++ String.singleton (hexDigit (b % 16))

/-- Models urllib.parse.quote_plus on one character: space becomes "+",
ASCII alphanumerics and "_.-~" pass through, everything else is
percent-encoded byte-wise. -/
def quotePlusChar (c : Char) : String :=
  if c = ' ' then "+"
  else if (c.isAlphanum && c.toNat < 128) || c = '_' || c = '.' || c = '-' || c = '~' then
    String.singleton c
  else String.join ((utf8Bytes c).map pctEncode)

/-- Models urllib.parse.quote_plus. -/
def quotePlus (s : String) : String :=
  String.join (s.data.map quotePlusChar)

/-- Models _map_embed_src: numeric coordinate pair first, then the embed
URL field, then the external maps URL field, then an address query, else
empty. -/
def mapEmbedSrc (loc : Value) (address : String) : String :=
  let lat := aliasGet loc ("latitude")
  let lng := aliasGet loc ("longitude")
  if isNumPy lat && isNumPy lng then
    ("https://www.google.com/maps?q=") ++ pyStr lat ++ (",") ++ pyStr lng ++ ("&z=15&output=embed")
  else
    let mapUrl := firstNonempty [aliasGet loc ("map_embed_url")]
    let gmaps := firstNonempty [aliasGet loc ("google_maps_url")]
    if mapUrl ≠ "" then mapUrl
    else if gmaps ≠ "" then gmaps
    else if address ≠ "" then
      ("https://www.google.com/maps?q=") ++ quotePlus address ++ ("&output=embed")
    else ""

/-- Models _normalize_records: a list stays as is, a dict carrying a
locations list is unwrapped, any other dict becomes a singleton, anything
else is empty. -/
def normalizeRecords (payload : Value) : List Value :=
  match payload with
  | .list xs => xs
  | .dict kvs =>
    match (Value.dict kvs).get ("locations") with
    | .list xs => xs
    | _ => [Value.dict kvs]
  | _ => []

/-- Digits-and-underscores validation used by int(str): after a digit, the
rest may be further digits, with single underscores between digits. -/
def udigits : List Char → Bool
  | [] => true
  | '_' :: d :: rest => isAsciiDigit d && udigits rest
  | '_' :: [] => false
  | d :: rest => isAsciiDigit d && udigits rest

/-- A non-empty digit group as accepted by int(str). -/
def intDigitsOk : List Char → Bool
  | [] => false
  | d :: rest => isAsciiDigit d && udigits rest

/-- Numeric value of the digit characters of a list (underscores skipped). -/
def digitsVal (cs : List Char) : Nat :=
  (cs.filter isAsciiDigit).foldl (fun acc c => acc * 10 + (c.toNat - 48)) 0

/-- Models Python int(s) on a str: strip, optional sign, digits with
underscore separators; None when the string does not parse. -/
def pyIntOfString (s : String) : Option Int :=
  match (stripStr s).data with
  | '+' :: rest => if intDigitsOk rest then some (digitsVal rest) else Option.none
  | '-' :: rest => if intDigitsOk rest then some (-(digitsVal rest : Int)) else Option.none
  | cs => if intDigitsOk cs then some (digitsVal cs) else Option.none

/-- Truncation toward zero of a rational, as Python int(float). -/
def ratTruncInt (q : ℚ) : Int :=
  if q < 0 then -((-q).floor) else q.floor

/-- Models Python int(v), None for the TypeError/ValueError cases the
script catches. -/
def pyIntOpt : Value → Option Int
  | .int n => some n
  | .bool b => some (if b then 1 else 0)
  | .float q => some (ratTruncInt q)
  | .str s => pyIntOfString s
  | _ => Option.none

/-- Fractional value of a digit list read after the decimal point. -/
def fracVal : List Char → ℚ
  | [] => 0
  | c :: cs => (((c.toNat - 48 : ℕ) : ℚ) + fracVal cs) / 10

/-- Models Python float(s) on a str for the plain decimal forms
digits, digits.digits, digits., .digits (signs allowed). -/
def pyFloatOfString (s : String) : Option ℚ :=
  let core : List Char → Option ℚ := fun cs =>
    match sSplitOn (String.mk cs) (".") with
    | [a] =>
      if (!a.data.isEmpty) && a.data.all isAsciiDigit then some (digitsVal a.data) else Option.none
    | [a, b] =>
      if a.data.all isAsciiDigit ∧ b.data.all isAsciiDigit ∧ (!a.data.isEmpty || !b.data.isEmpty)
      then some ((digitsVal a.data : ℚ) + fracVal b.data) else Option.none
    | _ => Option.none
  match (stripStr s).data with
  | '+' :: rest => core rest
  | '-' :: rest => (core rest).map (fun q => -q)
  | cs => core cs

/-- Models Python float(v), None for the TypeError/ValueError cases the
script catches. -/
def pyFloatOpt : Value → Option ℚ
  | .int n => some n
  | .bool b => some (if b then 1 else 0)
  | .float q => some q
  | .str s => pyFloatOfString s
  | _ => Option.none

/-- Models Python round() to the nearest integer, ties to even. -/
def roundHalfEvenQ (q : ℚ) : Int :=
  let f := q.floor
  let frac := q - (f : ℚ)
  if frac < 1 / 2 then f
  else if 1 / 2 < frac then f + 1
  else if f % 2 = 0 then f else f + 1

/-- Models the "{:.1f}" format on the rational float model (one decimal,
ties of the scaled value to even). -/
def formatRat1 (q : ℚ) : String :=
  let n := roundHalfEvenQ (q * 10)
  (if n < 0 then "-" else "") ++ toString (n.natAbs / 10) ++ (".") ++ toString (n.natAbs % 10)

/-- The clamped star rating of a review: int(rev.get('rating', 5)) with 5
for unparseable values, clamped into 1..5. -/
def ratingOf (rev : Value) : Int :=
  let r := (pyIntOpt (rev.getD ("rating") (.int 5))).getD 5
  max 1 (min 5 r)

/-- The star glyph line: rating filled stars then 5 - rating empty stars. -/
def starDisplay (r : Int) : String :=
  String.mk (List.replicate r.toNat '★') ++ String.mk (List.replicate ((5 - r).toNat) '☆')

/-- Stable insertion of a string into an ascending list (worker of
`sortStr`). -/
def insertSorted (x : String) : List String → List String
  | [] => [x]
  | y :: ys => if strLt x y then x :: y :: ys else y :: insertSorted x ys

/-- Models Python sorted() on strings (code-point order). -/
def sortStr : List String → List String
  | [] => []
  | x :: xs => insertSorted x (sortStr xs)

/-- Exact first-occurrence de-duplication (Python set semantics combined
with sorted(list(...))). -/
def dedupStrGo (seen : List String) : List String → List String
  | [] => []
  | x :: xs =>
    if seen.contains x then dedupStrGo seen xs
    else x :: dedupStrGo (x :: seen) xs

/-- Distinct elements of a string list, first occurrences kept. -/
def dedupStr (l : List String) : List String :=
  dedupStrGo [] l

/-- Suffix test against several candidate extensions. -/
def endsWithAny (s : String) (sufs : List String) : Bool :=
  sufs.any (fun e => sEndsWith s e)

/-- The file system, parsers and environment the script runs against, as
read-only oracles: directory listings are returned in the order the
operating system yields them, readFile is None when the read raises, the
parsers are None when yaml.safe_load / json.loads raise, walkSchemas is
the os.walk file enumeration under schemas with joined slash-separated
paths, and env is os.getenv. -/
structure Ctx where
  pathExists : String → Bool
  isDir : String → Bool
  isFile : String → Bool
  listDir : String → List String
  readFile : String → Option String
  parseJson : String → Option Value
  parseYaml : String → Option Value
  glob : String → List String
  walkSchemas : List String
  env : String → Option String

/-- The listification at the end of load_data: `data or []`, then
`data if isinstance(data, list) else [data]`. -/
def pyListWrap (v : Value) : List Value :=
  let data := if truthy v then v else Value.list []
  match data with
  | .list xs => xs
  | d => [d]

/-- Models load_data: empty list for a missing path, unreadable or empty
file, parse failure, or unsupported extension; otherwise the parsed
payload, a non-list promoted to a one-element list. -/
def loadData (ctx : Ctx) (path : String) : List Value :=
  if path = "" || !(ctx.pathExists path) then []
  else
    match ctx.readFile path with
    | Option.none => []
    | some raw =>
      let content := stripStr raw
      if content = "" then []
      else if endsWithAny path [(".yaml"), (".yml")] then
        match ctx.parseYaml content with
        | Option.none => []
        | some v => pyListWrap v
      else if sEndsWith path (".json") then
        match ctx.parseJson content with
        | Option.none => []
        | some v => pyListWrap v
      else []

/-- Models _load_first_yaml_json over an already-globbed path list. -/
def loadFirstYamlJson (ctx : Ctx) : List String → Option Value
  | [] => Option.none
  | p :: ps =>
    if ctx.isFile p && endsWithAny (lowerStr p) [(".json"), (".yaml"), (".yml")] then
      match loadData ctx p with
      | [] => loadFirstYamlJson ctx ps
      | x :: _ => some x
    else loadFirstYamlJson ctx ps

/-- Models _load_first_yaml_json on a glob pattern. -/
def loadFirstGlob (ctx : Ctx) (pat : String) : Option Value :=
  loadFirstYamlJson ctx (ctx.glob pat)

/-- The probe patterns of _discover_entity_name_from_other_schemas. -/
def discoverProbes : List String :=
  [("schemas/organization/*.*"), ("schemas/organizations/*.*"), ("schemas/company/*.*"),
   ("schemas/entity/*.*"), ("schemas/business/*.*"), ("schemas/reviews/*.*"),
   ("schemas/services/*.*"), ("schemas/locations/*.*")]

/-- Models _discover_entity_name_from_other_schemas: the first truthy dict
found by the probes that exposes a name-like field (empty string for the
source's None). -/
def discoverName (ctx : Ctx) : List String → String
  | [] => ""
  | pat :: pats =>
    match loadFirstGlob ctx pat with
    | some obj =>
      if truthy obj && obj.isDict then
        let cand := firstNonempty [obj.get ("entity_name"), obj.get ("name"),
          obj.get ("legal_name"), obj.get ("brand"), obj.get ("company"),
          obj.get ("organization"), obj.get ("site_title")]
        if cand ≠ "" then cand else discoverName ctx pats
      else discoverName ctx pats
    | Option.none => discoverName ctx pats

/-- Site-level branding, with empty strings for the source's None. -/
structure OrgMeta where
  name : String
  favicon : String
  logo : String

/-- The organization-like directories probed by load_org_meta and the
about page. -/
def orgCandidateDirs : List String :=
  [("schemas/organization"), ("schemas/organizations"), ("schemas/company"),
   ("schemas/entity"), ("schemas/business")]

/-- First organization file: the first candidate directory that is a
directory and whose glob holds a json/yaml/yml file. -/
def findOrgFile (ctx : Ctx) : List String → Option String
  | [] => Option.none
  | d :: ds =>
    if ctx.isDir d then
      match (ctx.glob (d ++ ("/*.*"))).filter
          (fun p => endsWithAny (lowerStr p) [(".json"), (".yaml"), (".yml")]) with
      | [] => findOrgFile ctx ds
      | p :: _ => some p
    else findOrgFile ctx ds

/-- Brand-name fallback from the GITHUB_REPOSITORY slug, "Site" when the
variable is unset or empty. -/
def repoFallbackName (ctx : Ctx) : String :=
  let rs := (ctx.env ("GITHUB_REPOSITORY")).getD ("")
  if rs = "" then "Site"
  else titleCase (sReplace (pySplitOnceTail rs ("/")) ("-") (" "))

/-- The name-fallback chain at the end of load_org_meta. -/
def fillName (ctx : Ctx) (m : OrgMeta) : OrgMeta :=
  let n1 := if m.name = "" then discoverName ctx discoverProbes else m.name
  let n2 := if n1 = "" then repoFallbackName ctx else n1
  { m with name := n2 }

/-- Models load_org_meta. The source indexes `data[0]` without guarding
against an empty load result, so an org file that loads to no records
raises IndexError; that raise is modelled by the error case. -/
def loadOrgMeta (ctx : Ctx) : Except Unit OrgMeta :=
  match findOrgFile ctx orgCandidateDirs with
  | some p =>
    match loadData ctx p with
    | [] => .error ()
    | org :: _ =>
      let base : OrgMeta :=
        match org with
        | .dict _ =>
          { name := firstNonempty [org.get ("entity_name"), org.get ("name"),
              org.get ("legal_name"), org.get ("brand"), org.get ("site_title")]
            logo := firstNonempty [org.get ("logo_url"), org.get ("logo")]
            favicon := firstNonempty [org.get ("favicon"), org.get ("favicon_url")] }
        | _ => { name := "", favicon := "", logo := "" }
      .ok (fillName ctx base)
  | Option.none => .ok (fillName ctx { name := "", favicon := "", logo := "" })

/-- The wall-clock readings interpolated into the page footer:
datetime.now().year and the formatted utcnow() string. -/
structure PyTime where
  year : Int
  stamp : String

/-- One generated HTML page before final string rendering: the branding,
page title, favicon, inner content and footer timestamp that generate_page
interpolates into the fixed shell. -/
structure Page where
  siteName : String
  title : String
  favicon : String
  content : String
  time : PyTime

/-- Models generate_page up to the pure shell rendering: resolves branding
(and can therefore propagate load_org_meta's IndexError) and packages the
interpolated data. -/
def generatePage (ctx : Ctx) (t : PyTime) (title : String) (content : String) :
    Except Unit Page :=
  match loadOrgMeta ctx with
  | .error e => .error e
  | .ok org =>
    let siteName := if org.name = "" then "Site" else org.name
    let favicon := if org.favicon = "" then "favicon.ico" else org.favicon
    .ok { siteName := siteName, title := title, favicon := favicon,
          content := content, time := t }

/-- The fixed navigation fragment of generate_nav. -/
def navHtml : String :=
  "\n    <nav style=\"background: #2c3e50; padding: 1rem; margin-bottom: 2rem;\">\n        <ul style=\"list-style: none; display: flex; gap: 2rem; margin: 0; padding: 0; flex-wrap: wrap; justify-content: center;\">\n            <li><a href=\"index.html\" style=\"color: white; text-decoration: none;\">Home</a></li>\n            <li><a href=\"about.html\" style=\"color: white; text-decoration: none;\">About</a></li>\n            <li><a href=\"services.html\" style=\"color: white; text-decoration: none;\">Services</a></li>\n            <li><a href=\"testimonials.html\" style=\"color: white; text-decoration: none;\">Testimonials</a></li>\n            <li><a href=\"faqs.html\" style=\"color: white; text-decoration: none;\">FAQs</a></li>\n            <li><a href=\"help.html\" style=\"color: white; text-decoration: none;\">Help</a></li>\n            <li><a href=\"contact.html\" style=\"color: white; text-decoration: none;\">Contact</a></li>\n        </ul>\n    </nav>\n    "

/-- The fixed style block of the page shell (literal braces written as
their escapes). -/
def shellStyle : String :=
  "    <style>\n        body \x7b font-family: -apple-system, BlinkMacSystemFont, sans-serif; max-width: 900px; margin: 0 auto; padding: 20px; line-height: 1.7; \x7d\n        h1, h2, h3 \x7b color: #2c3e50; \x7d\n        a \x7b color: #3498db; text-decoration: none; \x7d\n        a:hover \x7b text-decoration: underline; \x7d\n        img \x7b max-width: 100%; height: auto; \x7d\n        .page-header \x7b background: #ecf0f1; padding: 2rem; border-radius: 8px; margin-bottom: 2rem; text-align: center; \x7d\n        .card \x7b border: 1px solid #eee; padding: 1.5rem; border-radius: 8px; margin: 2rem 0; \x7d\n        .badge \x7b background: #3498db; color: white; padding: 0.25rem 0.5rem; border-radius: 4px; font-size: 0.9em; \x7d\n    </style>\n"

/-- Byte-level rendering of a page through the shell template of
generate_page. -/
def renderPage (p : Page) : String :=
  let pageTitle :=
    if p.title ≠ "" then escapeHtmlStr p.siteName ++ (" — ") ++ escapeHtmlStr p.title
    else escapeHtmlStr p.siteName
  "<!DOCTYPE html>\n<html lang=\"en\">\n<head>\n    <meta charset=\"UTF-8\">\n    <title>"
    ++ pageTitle
    ++ "</title>\n    <meta name=\"application-name\" content=\"" ++ escapeHtmlStr p.siteName
    ++ "\">\n    <meta name=\"viewport\" content=\"width=device-width, initial-scale=1.0\">\n    <meta name=\"theme-color\" content=\"#2c3e50\">\n    <link rel=\"icon\" href=\"" ++ escapeHtmlStr p.favicon
    ++ "\">\n    <link rel=\"icon\" type=\"image/png\" sizes=\"32x32\" href=\"icons/favicon-32.png\">\n    <link rel=\"icon\" type=\"image/png\" sizes=\"16x16\" href=\"icons/favicon-16.png\">\n    <link rel=\"apple-touch-icon\" sizes=\"180x180\" href=\"icons/apple-touch-icon.png\">\n    <link rel=\"manifest\" href=\"site.webmanifest\">\n"
    ++ shellStyle
    ++ "</head>\n<body>\n    " ++ navHtml
    ++ "\n    <div class=\"page-header\">\n        <h1>"
    ++ escapeHtmlStr (if p.title = "" then p.siteName else p.title)
    ++ "</h1>\n    </div>\n    " ++ p.content
    ++ "\n    <footer style=\"margin-top: 4rem; padding-top: 2rem; border-top: 1px solid #eee; text-align: center; color: #7f8c8d;\">\n        <p>© "
    ++ toString p.time.year
    ++ " — Auto-generated from structured data. Last updated: "
    ++ p.time.stamp
    ++ "</p>\n    </footer>\n</body>\n</html>"

/-- Outcome of one page assembler as observed by the orchestrator: a
normal return carrying the files written and the boolean result, an
exception caught at the orchestrator boundary, or an uncaught SystemExit. -/
inductive GenResult where
  | ok (writes : List (String × Page)) (ret : Bool)
  | exc (writes : List (String × Page))
  | exit (code : Int)

/-- The final `open(filename).write(generate_page(...)); return True` step
shared by the assemblers; a raise inside generate_page escapes the
assembler. -/
def writePage (ctx : Ctx) (t : PyTime) (fname title content : String) : GenResult :=
  match generatePage ctx t title content with
  | .error _ => .exc []
  | .ok pg => .ok [(fname, pg)] true

/-- Models _write_placeholder_page: the write is wrapped in its own
try/except, so a raise yields False instead of escaping. -/
def writePlaceholder (ctx : Ctx) (t : PyTime) (fname title msg : String) : GenResult :=
  match generatePage ctx t title (("<p>") ++ escapeHtmlStr msg ++ ("</p>")) with
  | .error _ => .ok [] false
  | .ok pg => .ok [(fname, pg)] true

/-- Models escape_html on an arbitrary value: non-strings render as "". -/
def escapeHtml : Value → String
  | .str s => escapeHtmlStr s
  | _ => ""

/-- An anchor with target _blank and rel nofollow, as the f-strings of the
contact and about pages build it. -/
def extLink (href text : String) : String :=
  ("<a href=") ++ sqt ++ href ++ sqt ++ (" target=") ++ sqt ++ ("_blank") ++ sqt
    ++ (" rel=") ++ sqt ++ ("nofollow") ++ sqt ++ (">") ++ text ++ ("</a>")

/-- State threaded through the contact-page record loop: rendered cards
and the Quick Contact capture of the first name/phone/email. -/
structure ContactAcc where
  items : List String
  firstName : String
  firstPhone : String
  firstEmail : String

/-- One location card of the contact page. -/
def contactBlock (name person addr hours site : String)
    (socials : List String) (mapSrc : String) : String :=
  ("<div class=") ++ sqt ++ ("card") ++ sqt ++ (">")
    ++ ("<h3>") ++ escapeHtmlStr name ++ ("</h3><p>")
    ++ (if person ≠ "" then ("<strong>Contact:</strong> ") ++ escapeHtmlStr person ++ ("<br>") else "")
    ++ (if addr ≠ "" then ("<strong>Address:</strong> ") ++ escapeHtmlStr addr ++ ("<br>") else "")
    ++ (if hours ≠ "" then ("<strong>Hours:</strong> ") ++ escapeHtmlStr hours ++ ("<br>") else "")
    ++ (if site ≠ "" then ("<strong>Website:</strong> ") ++ extLink (escapeHtmlStr site) (escapeHtmlStr site) ++ ("<br>") else "")
    ++ ("</p>")
    ++ (if !socials.isEmpty then
          ("<p><strong>Find us:</strong> ")
            ++ String.intercalate (" • ") ((socials.take 8).map (fun s => extLink (escapeHtmlStr s) (escapeHtmlStr s)))
            ++ ("</p>")
        else "")
    ++ (if mapSrc ≠ "" then
          ("\n<div style=\"margin-top: 1rem;\">\n<iframe src=\"") ++ escapeHtmlStr mapSrc
            ++ ("\" width=\"100%\" height=\"320\"\nstyle=\"border:0; border-radius: 8px;\" allowfullscreen loading=\"lazy\"></iframe>\n</div>\n")
        else "")
    ++ ("</div>")

/-- The per-record step of the contact page loop (non-dict records are
skipped). -/
def contactStep (acc : ContactAcc) (loc : Value) : ContactAcc :=
  match loc with
  | .dict _ =>
    let name := firstNonempty [aliasGet loc ("entity_name"), loc.get ("location_name"), .str ("Location")]
    let person := firstNonempty [aliasGet loc ("contact_person")]
    let phone := firstNonempty [aliasGet loc ("phone")]
    let email := firstNonempty [aliasGet loc ("email")]
    let addr := formatAddress (loc.get ("address")) loc
    let hours := extractHours loc
    let site := firstNonempty [aliasGet loc ("website")]
    let socials := asList (aliasGet loc ("sameAs"))
    let mapSrc := mapEmbedSrc loc addr
    { items := acc.items ++ [contactBlock name person addr hours site socials mapSrc]
      firstName := if acc.firstName = "" then name else acc.firstName
      firstPhone := if acc.firstPhone = "" && phone ≠ "" then phone else acc.firstPhone
      firstEmail := if acc.firstEmail = "" && email ≠ "" then email else acc.firstEmail }
  | _ => acc

/-- The Quick Contact card of the contact page. -/
def quickContactCard (acc : ContactAcc) : String :=
  ("<div class=") ++ sqt ++ ("card") ++ sqt ++ ("><h2>Quick Contact</h2>")
    ++ (if acc.firstName ≠ "" then ("<p><strong>") ++ escapeHtmlStr acc.firstName ++ ("</strong></p>") else "")
    ++ (if acc.firstPhone ≠ "" then
          ("<p><strong>Phone:</strong> <a href=") ++ sqt ++ ("tel:") ++ escapeHtmlStr acc.firstPhone ++ sqt
            ++ (">") ++ escapeHtmlStr acc.firstPhone ++ ("</a></p>")
        else "")
    ++ (if acc.firstEmail ≠ "" then
          ("<p><strong>Email:</strong> <a href=") ++ sqt ++ ("mailto:") ++ escapeHtmlStr acc.firstEmail ++ sqt
            ++ (">") ++ escapeHtmlStr acc.firstEmail ++ ("</a></p>")
        else "")
    ++ ("</div>")

/-- Models generate_contact_page. -/
def generateContactPage (ctx : Ctx) (t : PyTime) : GenResult :=
  if !(ctx.pathExists ("schemas/locations")) then
    writePlaceholder ctx t ("contact.html") ("Contact Us") ("Contact details are not available yet.")
  else
    let files := (sortStr (ctx.listDir ("schemas/locations"))).filter
      (fun f => endsWithAny (lowerStr f) [(".json"), (".yaml"), (".yml")])
    let acc := files.foldl (fun acc f =>
      let data := loadData ctx (("schemas/locations/") ++ f)
      (normalizeRecords (.list data)).foldl contactStep acc)
      { items := [], firstName := "", firstPhone := "", firstEmail := "" }
    if acc.items.isEmpty then
      writePlaceholder ctx t ("contact.html") ("Contact Us") ("Contact details are not available yet.")
    else
      let intro0 := "<p>We’d love to hear from you. Reach out using the details below or visit us at our offices.</p>"
      let intro :=
        if acc.firstName ≠ "" ∨ acc.firstPhone ≠ "" ∨ acc.firstEmail ≠ "" then
          intro0 ++ quickContactCard acc
        else intro0
      writePage ctx t ("contact.html") ("Contact Us") (intro ++ String.join acc.items)

/-- The nested-services expansion of generate_services_page. -/
def expandServices (records : List Value) : List Value :=
  records.foldl (fun acc rec =>
    match rec with
    | .dict _ =>
      match rec.get ("services") with
      | .list ss => acc ++ ss
      | _ => acc ++ [rec]
    | _ => acc ++ [rec]) []

/-- Models the inner _guess_title of generate_services_page. -/
def guessTitle (obj : Value) (filename : String) : String :=
  let candidate := firstNonempty [obj.get ("title"), obj.get ("service_name"),
    obj.get ("name"), obj.get ("headline"), obj.get ("service"), obj.get ("offering"),
    obj.get ("product_name"), obj.get ("category"), obj.get ("subtype"),
    obj.get ("type"), obj.get ("label")]
  let candidate :=
    if isPlaceholderTitle candidate then
      let kws := asList (obj.get ("keywords"))
      if kws.isEmpty then candidate
      else titleCase (String.intercalate (" / ") (kws.take 2))
    else candidate
  if isPlaceholderTitle candidate then titleFromFilename filename else candidate

/-- One service card of the services page. -/
def serviceCard (svc : Value) (filepath : String) : String :=
  let title := guessTitle svc filepath
  let description := guessDescription svc
  let price := guessPrice svc
  let featured := truthy (pyOr (svc.get ("featured")) (svc.get ("is_featured")))
  let slugV := pyOr (svc.get ("slug")) (.str (slugify title))
  let badge := if featured then "<span class=\"badge\">Featured</span>" else ""
  let bullets := bulletPoints svc
  let bulletHtml :=
    if bullets.isEmpty then ""
    else ("<ul>") ++ String.join (bullets.map (fun b => ("<li>") ++ escapeHtmlStr b ++ ("</li>"))) ++ ("</ul>")
  ("\n<div class=\"card\" id=\"") ++ escapeHtml slugV ++ ("\">\n<h2>")
    ++ escapeHtmlStr title ++ (" ") ++ badge ++ ("</h2>\n")
    ++ (if description ≠ "" then ("<p>") ++ escapeHtmlStr description ++ ("</p>") else "")
    ++ ("\n") ++ bulletHtml
    ++ ("\n<p><strong>Starting at:</strong> ") ++ escapeHtmlStr price ++ ("</p>\n<a href=\"#")
    ++ pyStr slugV ++ ("\" style=\"display: inline-block; margin-top: 1rem;\">🔗 Permalink</a>\n</div>\n")

/-- Models generate_services_page. -/
def generateServicesPage (ctx : Ctx) (t : PyTime) : GenResult :=
  if !(ctx.pathExists ("schemas/services")) then
    writePlaceholder ctx t ("services.html") ("Our Services") ("No services have been published yet.")
  else
    let files := (sortStr (ctx.listDir ("schemas/services"))).filter
      (fun f => endsWithAny f [(".json"), (".yaml"), (".yml")])
    let items := files.foldl (fun acc file =>
      let filepath := ("schemas/services/") ++ file
      let data := loadData ctx filepath
      if data.isEmpty then acc
      else acc ++ ((expandServices data).filterMap (fun svc =>
        match svc with
        | .dict _ => some (serviceCard svc filepath)
        | _ => Option.none))) []
    if items.isEmpty then
      writePlaceholder ctx t ("services.html") ("Our Services") ("No services have been published yet.")
    else
      writePage ctx t ("services.html") ("Our Services") (String.join items)

/-- One testimonial card (non-dict review records are skipped). -/
def reviewCard (rev : Value) : Option String :=
  match rev with
  | .dict _ =>
    let author := pyOr (rev.get ("customer_name")) (pyOr (rev.get ("author")) (.str ("Anonymous")))
    let entity := rev.get ("entity_name")
    let quote := pyOr (rev.get ("review_body")) (pyOr (rev.get ("quote"))
      (pyOr (rev.get ("review_title")) (.str ("No review text provided."))))
    let rating := ratingOf rev
    let date := rev.get ("date")
    some (("\n<blockquote class=\"card\" style=\"font-style: italic;\">\n<p>“")
      ++ escapeHtml quote ++ ("”</p>\n<footer style=\"margin-top: 1rem; font-style: normal;\">\n— ")
      ++ escapeHtml author
      ++ (if truthy entity then (", ") ++ escapeHtml entity else "")
      ++ (if truthy date then ("<br/><small>") ++ escapeHtml date ++ ("</small>") else "")
      ++ ("\n</footer>\n<div style=\"margin-top: 0.5rem;\">") ++ starDisplay rating
      ++ ("</div>\n</blockquote>\n"))
  | _ => Option.none

/-- Models generate_testimonials_page: the page is always written, with a
placeholder card when no reviews render. -/
def generateTestimonialsPage (ctx : Ctx) (t : PyTime) : GenResult :=
  let items :=
    if ctx.pathExists ("schemas/reviews") then
      ((ctx.listDir ("schemas/reviews")).filter
          (fun f => endsWithAny f [(".json"), (".yaml"), (".yml")])).foldl (fun acc file =>
        let data := loadData ctx (("schemas/reviews/") ++ file)
        if data.isEmpty then acc else acc ++ data.filterMap reviewCard) []
    else []
  let html :=
    if items.isEmpty then
      ("<div class=") ++ sqt ++ ("card") ++ sqt
        ++ ("><p>No testimonials have been published yet. Check back soon.</p></div>")
    else String.join items
  writePage ctx t ("testimonials.html") ("Testimonials") html

/-- Python `(v or '').strip()`: a falsy value yields "", a truthy string is
stripped, a truthy non-string raises AttributeError. -/
def pyOrStrStrip (v : Value) : Except Unit String :=
  if truthy v then
    match v with
    | .str s => .ok (stripStr s)
    | _ => .error ()
  else .ok ("")

/-- One FAQ entry: a raise on non-dict items or truthy non-string fields,
None for a dropped (question-less) entry, otherwise the card. -/
def faqEntry (item : Value) : Except Unit (Option String) :=
  match item with
  | .dict _ => do
    let q ← pyOrStrStrip (item.get ("question"))
    let a ← pyOrStrStrip (item.get ("answer"))
    if q = "" then pure Option.none
    else pure (some (("\n<div class=\"card\">\n<h3 style=\"margin: 0 0 0.5rem 0;\">")
      ++ escapeHtmlStr q ++ ("</h3>\n<p>") ++ escapeHtmlStr a ++ ("</p>\n</div>\n")))
  | _ => .error ()

/-- The FAQ item collection loop, propagating any raise. -/
def faqItems (ctx : Ctx) (files : List String) : Except Unit (List String) :=
  files.foldlM (fun acc file => do
    let data := loadData ctx (("schemas/faqs/") ++ file)
    if data.isEmpty then pure acc
    else
      data.foldlM (fun a item => do
        match ← faqEntry item with
        | some s => pure (a ++ [s])
        | Option.none => pure a) acc) []

/-- Models generate_faq_page. -/
def generateFaqPage (ctx : Ctx) (t : PyTime) : GenResult :=
  if !(ctx.pathExists ("schemas/faqs")) then
    writePlaceholder ctx t ("faqs.html") ("Frequently Asked Questions") ("No FAQs have been published yet.")
  else
    let files := (ctx.listDir ("schemas/faqs")).filter
      (fun f => endsWithAny f [(".json"), (".yaml"), (".yml")])
    match faqItems ctx files with
    | .error _ => .exc []
    | .ok items =>
      if items.isEmpty then
        writePlaceholder ctx t ("faqs.html") ("Frequently Asked Questions") ("No FAQs have been published yet.")
      else
        writePage ctx t ("faqs.html") ("Frequently Asked Questions") (String.join items)

/-- Models Python str.splitlines for newline-delimited text. -/
def pySplitlines (s : String) : List String :=
  if s = "" then []
  else
    let ps := sSplitOn s ("\n")
    if ps.getLastD ("x") = "" then ps.dropLast else ps

/-- Front-matter scanning state of generate_help_articles_page. -/
structure FmState where
  title : Option String
  body : List String
  inFm : Bool
  fmDone : Bool

/-- One line of the front-matter scan. -/
def fmStep (st : FmState) (line : String) : FmState :=
  if stripStr line = ("---") ∧ ¬st.fmDone then
    if st.inFm then { st with inFm := false, fmDone := true }
    else { st with inFm := true }
  else if st.inFm ∧ ¬st.fmDone then
    if sStartsWith (lowerStr line) ("title:") then
      { st with title := some (stripStr (pySplitOnceTail line (":"))) }
    else st
  else { st with body := st.body ++ [line] }

/-- The minimal markdown-to-HTML conversion of one body line. -/
def mdLine (line : String) : String :=
  if sStartsWith line ("## ") then ("<h2>") ++ escapeHtmlStr (line.drop 3) ++ ("</h2>")
  else if sStartsWith line ("# ") then ("<h1>") ++ escapeHtmlStr (line.drop 2) ++ ("</h1>")
  else if sStartsWith line ("- ") || sStartsWith line ("* ") then
    ("<p>• ") ++ escapeHtmlStr (line.drop 2) ++ ("</p>")
  else if stripStr line = "" then "<br/>"
  else ("<p>") ++ escapeHtmlStr line ++ ("</p>")

/-- One help article rendered from a markdown file. -/
def helpArticle (fname : String) (content : String) : String :=
  let st := (pySplitlines content).foldl fmStep
    { title := Option.none, body := [], inFm := false, fmDone := false }
  let title :=
    match st.title with
    | some ti => ti
    | Option.none => titleCase (sReplace (sReplace fname (".md") ("")) ("-") (" "))
  ("\n<div class=\"card\">\n<h2>") ++ escapeHtmlStr title ++ ("</h2>\n")
    ++ String.join (st.body.map mdLine) ++ ("\n</div>\n")

/-- Models generate_help_articles_page; an unreadable article file raises
out of the assembler (there is no per-file try in the source). -/
def generateHelpArticlesPage (ctx : Ctx) (t : PyTime) : GenResult :=
  if !(ctx.pathExists ("schemas/help-articles")) then
    writePlaceholder ctx t ("help.html") ("Help Center") ("No help articles have been published yet.")
  else
    let filesFound := (ctx.listDir ("schemas/help-articles")).filter (fun f => sEndsWith f (".md"))
    if filesFound.isEmpty then
      writePlaceholder ctx t ("help.html") ("Help Center") ("No help articles have been published yet.")
    else
      match filesFound.mapM (fun f => ctx.readFile (("schemas/help-articles/") ++ f)) with
      | Option.none => .exc []
      | some contents =>
        let articles := (filesFound.zip contents).map (fun fc => helpArticle fc.1 fc.2)
        writePage ctx t ("help.html") ("Help Center") (String.join articles)

/-- The quick-navigation link table of the home page. -/
def indexLinks : List (String × String) :=
  [(("About Us"), ("about.html")), (("Our Services"), ("services.html")),
   (("Testimonials"), ("testimonials.html")), (("FAQs"), ("faqs.html")),
   (("Help Center"), ("help.html")), (("Contact Us"), ("contact.html")),
   (("Browse All Schema Files"), ("#files"))]

/-- The rendered quick-navigation list items. -/
def quickLinksHtml : String :=
  String.intercalate ("\n") (indexLinks.map (fun nu =>
    ("<li style=\"margin: 0.5rem 0;\"><a href=\"") ++ nu.2
      ++ ("\" style=\"font-size: 1.1em; font-weight: 500;\">") ++ escapeHtmlStr nu.1
      ++ ("</a></li>")))

/-- One raw-file link of the home page index. -/
def fileLinkLi (baseUrl fp : String) : String :=
  ("<li><a href=\"") ++ baseUrl ++ ("/") ++ fp ++ ("\" target=\"_blank\">")
    ++ escapeHtmlStr (sReplace fp ("schemas/") ("")) ++ ("</a></li>")

/-- Models generate_index_page: branding first (which may raise), then the
fatal sys.exit(1) when GITHUB_REPOSITORY is unset or empty — SystemExit is
not an Exception and escapes the orchestrator's handler. -/
def generateIndexPage (ctx : Ctx) (t : PyTime) : GenResult :=
  match loadOrgMeta ctx with
  | .error _ => .exc []
  | .ok org =>
    let siteName := if org.name = "" then "Site" else org.name
    let rs := (ctx.env ("GITHUB_REPOSITORY")).getD ("")
    if rs = "" then .exit 1
    else
      let baseUrl := ("https://raw.githubusercontent.com/") ++ rs ++ ("/main")
      let fileLinks := (ctx.walkSchemas.filter
        (fun p => endsWithAny p [(".json"), (".yaml"), (".yml"), (".md"), (".llm")])).map (fileLinkLi baseUrl)
      let content := ("\n<p>Welcome to our AI-optimized data hub. Below are quick links to key sections, or browse all machine-readable files.</p>\n<h2>🚀 Quick Navigation</h2>\n<ul style=\"list-style: none; padding: 0;\">\n")
        ++ quickLinksHtml
        ++ ("\n</ul>\n<h2 id=\"files\">📁 All Schema Files</h2>\n<ul>\n")
        ++ String.join (sortStr fileLinks)
        ++ ("\n</ul>\n")
      writePage ctx t ("index.html") (("Welcome to ") ++ siteName) content

/-- Service titles gathered by the about page's sibling scan. -/
def aboutServiceTitles (ctx : Ctx) : List String :=
  if ctx.isDir ("schemas/services") then
    ((ctx.listDir ("schemas/services")).filter
        (fun f => endsWithAny f [(".json"), (".yaml"), (".yml")])).foldl (fun acc file =>
      acc ++ (loadData ctx (("schemas/services/") ++ file)).foldl (fun a rec =>
        match rec with
        | .dict _ =>
          match rec.get ("services") with
          | .list ss =>
            a ++ ss.filterMap (fun s =>
              match s with
              | .dict _ =>
                let ti := firstNonempty [s.get ("title"), s.get ("service_name"), s.get ("name")]
                let ti := if isPlaceholderTitle ti then "" else ti
                some (if ti = "" then titleFromFilename file else ti)
              | _ => Option.none)
          | _ =>
            let ti := firstNonempty [rec.get ("title"), rec.get ("service_name"), rec.get ("name")]
            let ti := if isPlaceholderTitle ti then "" else ti
            a ++ [if ti = "" then titleFromFilename file else ti]
        | _ => a) []) []
  else []

/-- Service areas, first phone and first email gathered by the about
page's locations scan. -/
def aboutAreasPhoneEmail (ctx : Ctx) : List String × String × String :=
  if ctx.isDir ("schemas/locations") then
    ((ctx.listDir ("schemas/locations")).filter
        (fun f => endsWithAny f [(".json"), (".yaml"), (".yml")])).foldl (fun acc file =>
      (loadData ctx (("schemas/locations/") ++ file)).foldl (fun acc loc =>
        match loc with
        | .dict _ =>
          let areas := acc.1 ++ asList (pyOr (loc.get ("service_areas")) (loc.get ("areas")))
          let phone := if acc.2.1 = "" then firstNonempty [aliasGet loc ("phone")] else acc.2.1
          let email := if acc.2.2 = "" then firstNonempty [aliasGet loc ("email")] else acc.2.2
          (areas, phone, email)
        | _ => acc) acc) ([], "", "")
  else ([], "", "")

/-- Review ratings gathered by the about page's reviews scan: parseable
positive ratings only. -/
def aboutRatings (ctx : Ctx) : List ℚ :=
  if ctx.isDir ("schemas/reviews") then
    ((ctx.listDir ("schemas/reviews")).filter
        (fun f => endsWithAny f [(".json"), (".yaml"), (".yml")])).foldl (fun acc file =>
      (loadData ctx (("schemas/reviews/") ++ file)).foldl (fun acc rev =>
        match rev with
        | .dict _ =>
          match pyFloatOpt (rev.get ("rating")) with
          | some r => if 0 < r then acc ++ [r] else acc
          | Option.none => acc
        | _ => acc) acc) []
  else []

/-- The synthesized organization record used when no org file is usable. -/
def aboutFallbackOrg (ctx : Ctx) : Value :=
  let rs := (ctx.env ("GITHUB_REPOSITORY")).getD ("")
  let nm := if rs = "" then "Our Company" else titleCase (sReplace (pySplitOnceTail rs ("/")) ("-") (" "))
  .dict [(("entity_name"), .str nm), (("name"), .str nm), (("description"), .str ("")),
    (("mission"), .str ("")), (("vision"), .str ("")), (("logo_url"), .str ("")),
    (("website"), .str (""))]

/-- The about-page body once the org record (a truthy dict) is fixed. -/
def aboutBody (ctx : Ctx) (org : Value) : String × String :=
  let serviceCount := (aboutServiceTitles ctx).length
  let ape := aboutAreasPhoneEmail ctx
  let areas := sortStr (dedupStr ape.1)
  let phone := ape.2.1
  let email := ape.2.2
  let ratings := aboutRatings ctx
  let displayName :=
    let x := firstNonempty [org.get ("entity_name"), org.get ("name")]
    if x = "" then "About Us" else x
  let logoUrl := firstNonempty [org.get ("logo_url"), org.get ("logo")]
  let part1 : List String :=
    if logoUrl ≠ "" then
      [("<img src=\"") ++ escapeHtmlStr logoUrl ++ ("\" alt=\"") ++ escapeHtmlStr displayName
        ++ ("\" style=\"max-height: 120px; margin-bottom: 2rem;\">")]
    else []
  let desc0 := firstNonempty [org.get ("description")]
  let desc :=
    if desc0 = "" then
      displayName ++ (" is a professional firm serving our community with high-quality services and a client-first approach.")
    else desc0
  let facts : List String :=
    [("<strong>Services offered:</strong> ") ++ toString serviceCount]
    ++ (if ratings.isEmpty then []
        else
          let avg := ratings.foldl (fun a b => a + b) 0 / (ratings.length : ℚ)
          let k := roundHalfEvenQ avg
          let stars := String.mk (List.replicate k.toNat '★')
            ++ String.mk (List.replicate (((5 : Int) - k).toNat) '☆')
          [("<strong>Average rating:</strong> ") ++ formatRat1 avg ++ (" ") ++ stars])
    ++ (if areas.isEmpty then []
        else [("<strong>Service areas:</strong> ") ++ escapeHtmlStr (String.intercalate (", ") (areas.take 8))])
    ++ (if phone = "" then [] else [("<strong>Phone:</strong> ") ++ escapeHtmlStr phone])
    ++ (if email = "" then []
        else [("<strong>Email:</strong> <a href=\"mailto:") ++ escapeHtmlStr email ++ ("\">") ++ escapeHtmlStr email ++ ("</a>")])
  let factsCard := ("<div class=\"card\"><h2>Facts at a Glance</h2><ul>")
    ++ String.join (facts.map (fun row => ("<li>") ++ row ++ ("</li>"))) ++ ("</ul></div>")
  let missionPart :=
    if truthy (org.get ("mission")) then
      [("<h2>Our Mission</h2><p>") ++ escapeHtml (org.get ("mission")) ++ ("</p>")]
    else []
  let visionPart :=
    if truthy (org.get ("vision")) then
      [("<h2>Our Vision</h2><p>") ++ escapeHtml (org.get ("vision")) ++ ("</p>")]
    else []
  let website := firstNonempty [org.get ("website"), org.get ("url")]
  let sameAs := asList (pyOr (org.get ("sameAs")) (org.get ("same_as")))
  let linksPart :=
    if website ≠ "" ∨ !sameAs.isEmpty then
      [("<h2>Links</h2><ul>")
        ++ (if website ≠ "" then ("<li>") ++ extLink (escapeHtmlStr website) ("Website") ++ ("</li>") else "")
        ++ String.join ((sameAs.take 12).map (fun s => ("<li>") ++ extLink (escapeHtmlStr s) (escapeHtmlStr s) ++ ("</li>")))
        ++ ("</ul>")]
    else []
  let readyCard := "\n<div class=\"card\">\n<h2>Ready to Talk?</h2>\n<p>Have a project in mind or need guidance? We’re here to help.</p>\n<p><a href=\"contact.html\">Contact us</a> to get started.</p>\n</div>\n"
  let parts := part1 ++ [("<p>") ++ escapeHtmlStr desc ++ ("</p>")] ++ [factsCard]
    ++ missionPart ++ visionPart ++ linksPart ++ [readyCard]
  (displayName, String.intercalate ("\n") parts)

/-- Models generate_about_page: org record discovery with synthesized
fallback, sibling-directory fan-in, and a raise when a truthy non-dict org
record reaches the attribute accesses. -/
def generateAboutPage (ctx : Ctx) (t : PyTime) : GenResult :=
  let picked : Option Value :=
    match orgCandidateDirs.find? ctx.isDir with
    | some d =>
      match (ctx.listDir d).filter (fun f => endsWithAny f [(".json"), (".yaml"), (".yml")]) with
      | [] => Option.none
      | c :: _ =>
        match loadData ctx (d ++ ("/") ++ c) with
        | [] => Option.none
        | x :: _ => some x
    | Option.none => Option.none
  let org0 :=
    match picked with
    | some o => o
    | Option.none => Value.none
  let org := if truthy org0 then org0 else aboutFallbackOrg ctx
  match org with
  | .dict _ =>
    let body := aboutBody ctx org
    writePage ctx t ("about.html") body.1 body.2
  | _ => .exc []

/-- The fixed page-generator table of the orchestrator, in run order. -/
def pageGenerators : List (Ctx → PyTime → GenResult) :=
  [generateIndexPage, generateAboutPage, generateServicesPage,
   generateTestimonialsPage, generateFaqPage, generateHelpArticlesPage,
   generateContactPage]

/-- The orchestrator loop: each assembler runs in order, Exception results
are swallowed, SystemExit aborts the process with its code; a completed
loop exits 0 (a run with zero successes only warns). -/
def runGenerators (ctx : Ctx) (t : PyTime) (acc : List (String × Page)) :
    List (Ctx → PyTime → GenResult) → Int × List (String × Page)
  | [] => (0, acc)
  | g :: gs =>
    match g ctx t with
    | .ok w _ => runGenerators ctx t (acc ++ w) gs
    | .exc w => runGenerators ctx t (acc ++ w) gs
    | .exit c => (c, acc)

/-- Models the __main__ block after the chdir: fatal exit 1 when schemas/
is missing, otherwise the seven assemblers run in order and the process
exits 0 unless SystemExit escapes. The result is the exit status and the
pages written. -/
def mainBuild (ctx : Ctx) (t : PyTime) : Int × List (String × Page) :=
  if !(ctx.pathExists ("schemas")) then (1, [])
  else runGenerators ctx t [] pageGenerators

/- Specification-side definitions and concrete contexts used by the claim
theorems. -/

/-- The presence rule of spec section 3, written from the spec's words: a
non-empty trimmed string, any number (zero included), or a mapping whose
"@value" entry is a non-empty string; used to compare the spec's claimed
resolution rule with the code's actual one. -/
def sec3Present : Value → Bool
  | .str s => stripStr s ≠ ""
  | .int _ => true
  | .float _ => true
  | .dict kvs =>
    match (Value.dict kvs).find? ("@value") with
    | some (.str s) => stripStr s ≠ ""
    | _ => false
  | _ => false

/-- The resolution algorithm as the (corrected) claim describes it: the
first key among the canonical key and its declared aliases whose stored
value is truthy-or-zero wins and its stored value is returned unchanged;
otherwise the nested geo entry for latitude/longitude, the contactPoint
short alias list for phone/email, or None. -/
def resolveSpecModel (d : Value) (canon : String) : Value :=
  match d with
  | .dict _ =>
    (match (canon :: fieldAliases canon).find? (fun k => presentPy (d.get k)) with
     | some k => d.get k
     | Option.none =>
       if canon = ("latitude") ∨ canon = ("longitude") then
         match pyOr (d.get ("geo")) (.dict []) with
         | .dict gs => (Value.dict gs).get canon
         | _ => .none
       else if canon = ("phone") ∨ canon = ("email") then
         match pyOr (d.get ("contactPoint")) (d.get ("contact_point")) with
         | .dict cs =>
           if canon = ("phone") then
             .str (firstNonempty [(Value.dict cs).get ("telephone"), (Value.dict cs).get ("phone")])
           else .str (firstNonempty [(Value.dict cs).get ("email")])
         | _ => .none
       else .none)
  | _ => .none

/-- The map-link priority ladder as the spec states it, clause by clause. -/
def specMapLink (loc : Value) (address : String) : String :=
  if isNumPy (aliasGet loc ("latitude")) && isNumPy (aliasGet loc ("longitude")) then
    ("https://www.google.com/maps?q=") ++ pyStr (aliasGet loc ("latitude")) ++ (",")
      ++ pyStr (aliasGet loc ("longitude")) ++ ("&z=15&output=embed")
  else if firstNonempty [aliasGet loc ("map_embed_url")] ≠ "" then
    firstNonempty [aliasGet loc ("map_embed_url")]
  else if firstNonempty [aliasGet loc ("google_maps_url")] ≠ "" then
    firstNonempty [aliasGet loc ("google_maps_url")]
  else if address ≠ "" then
    ("https://www.google.com/maps?q=") ++ quotePlus address ++ ("&output=embed")
  else ""

/-- The placeholder-title regular expression, as a declarative property: a
pattern word, then optional whitespace, then at least one digit. -/
def PatternSpec (t : String) : Prop :=
  ∃ w sp ds, w ∈ placeholderWords ∧ t.data = w ++ sp ++ ds
    ∧ (∀ c ∈ sp, isPySpace c = true) ∧ ds ≠ [] ∧ (∀ c ∈ ds, isAsciiDigit c = true)

/-- A file system in which schemas/ exists, every content subdirectory is
absent, nothing is readable, and GITHUB_REPOSITORY carries the given
value; this is the content root of the always-emit claim. -/
def ctxEmptySub (rs : Option String) : Ctx :=
  { pathExists := fun p => p = ("schemas")
    isDir := fun _ => false
    isFile := fun _ => false
    listDir := fun _ => []
    readFile := fun _ => Option.none
    parseJson := fun _ => Option.none
    parseYaml := fun _ => Option.none
    glob := fun _ => []
    walkSchemas := []
    env := fun k => if k = ("GITHUB_REPOSITORY") then rs else Option.none }

/-- The empty content root with the repository variable set. -/
def ctxC1 : Ctx := ctxEmptySub (some ("DFYRANKINGS/behr-construction-ai-data"))

/-- The empty content root with the repository variable unset. -/
def ctxC1NoEnv : Ctx := ctxEmptySub Option.none

/-- A file system with no schemas directory at all. -/
def ctxNoSchemas : Ctx :=
  { ctxEmptySub (some ("DFYRANKINGS/behr-construction-ai-data")) with pathExists := fun _ => false }

/-- A fixed timestamp value used by concrete runs. -/
def tZero : PyTime := { year := 0, stamp := "" }

/-- The location-container payload of the loader counterexample. -/
def locContainer : Value :=
  .dict [(("locations"), .list [.dict [(("name"), .str ("A"))]])]

/-- A file system holding one json file whose payload is `locContainer`. -/
def ctxC6 : Ctx :=
  { pathExists := fun p => p = ("schemas") || p = ("schemas/locations/a.json")
    isDir := fun _ => false
    isFile := fun p => p = ("schemas/locations/a.json")
    listDir := fun d => if d = ("schemas/locations") then [("a.json")] else []
    readFile := fun p => if p = ("schemas/locations/a.json") then some ("X") else Option.none
    parseJson := fun s => if s = ("X") then some locContainer else Option.none
    parseYaml := fun _ => Option.none
    glob := fun _ => []
    walkSchemas := [("schemas/locations/a.json")]
    env := fun k => if k = ("GITHUB_REPOSITORY") then some ("o/r") else Option.none }

/- Helper lemmas. -/

/-- The alias loop of _alias_get is the first-hit search over the key
list. -/
theorem aliasFirst_eq_find (d : Value) (ks : List String) :
    aliasFirst d ks = (ks.find? (fun k => presentPy (d.get k))).map (fun k => d.get k) := by
  induction ks with
  | nil => rfl
  | cons k ks ih =>
    by_cases h : presentPy (d.get k) = true
    · simp [aliasFirst, h, List.find?_cons_of_pos]
    · simp [aliasFirst, h, List.find?_cons_of_neg, ih]

/-- C4: the map-link synthesizer returns exactly one value by the spec's
first-match-wins priority ladder, with no combination: the general
equality to the clause-by-clause spec ladder, the coordinates-beat-embed
instance, the embed-beats-external instance, the external-URL instance,
the URL-escaped address fallback, and the empty final fallback. -/
theorem c4_map_link_priority :
    (∀ loc addr, mapEmbedSrc loc addr = specMapLink loc addr)
    ∧ mapEmbedSrc (.dict [(("latitude"), .int 40), (("longitude"), .int (-74)),
        (("map_embed_url"), .str ("https://emb"))]) ("1 Main St")
      = ("https://www.google.com/maps?q=40,-74&z=15&output=embed")
    ∧ mapEmbedSrc (.dict [(("map_embed_url"), .str ("https://emb")),
        (("google_maps_url"), .str ("https://gm"))]) ("1 Main St") = ("https://emb")
    ∧ mapEmbedSrc (.dict [(("google_maps_url"), .str ("https://gm"))]) ("1 Main St") = ("https://gm")
    ∧ mapEmbedSrc (.dict []) ("1 Main St, Town")
      = ("https://www.google.com/maps?q=1+Main+St%2C+Town&output=embed")
    ∧ mapEmbedSrc (.dict []) ("") = "" := by
  refine ⟨fun loc addr => rfl, ?_, ?_, ?_, ?_, rfl⟩ <;> rfl

/-- C8: the structured-hours renderer drops an entry whose day token is a
list instead of rendering its first element: the same entry renders once
the day is a plain string, so the list-handling branch in the source is
unreachable (dead) code. -/
theorem c8_hours_day_list_dropped :
    extractHours (.dict [(("openingHoursSpecification"),
        .list [.dict [(("dayOfWeek"), .list [.str ("Monday")]),
          (("opens"), .str ("09:00")), (("closes"), .str ("17:00"))]])]) = ""
    ∧ extractHours (.dict [(("openingHoursSpecification"),
        .list [.dict [(("dayOfWeek"), .str ("Monday")),
          (("opens"), .str ("09:00")), (("closes"), .str ("17:00"))]])])
      = ("Monday: 09:00 – 17:00") := by
  exact ⟨rfl, rfl⟩

/-- C3 counterexample: on a record whose canonical email key holds a
whitespace-only string, _alias_get returns that string even though it is
absent under the spec's section-3 presence rule while a later alias holds
a present value — the claim's "first present value under the section-3
rule" fails as stated. -/
theorem c3_counterexample :
    aliasGet (.dict [(("email"), .str ("   ")), (("contact_email"), .str ("x@y.com"))]) ("email")
      = .str ("   ")
    ∧ sec3Present (.str ("   ")) = false
    ∧ sec3Present (.str ("x@y.com")) = true := by
  exact ⟨rfl, rfl, rfl⟩

/-- C3 (amended): _alias_get returns the stored value of the first key
among the canonical key and its declared aliases whose value is truthy or
numerically zero (so numeric zero is present, but so is a whitespace-only
string), falling back to the raw nested geo entry for latitude/longitude
and to the contactPoint short alias list for phone/email, never merging
values; with the zero-latitude and empty-string-skipped instances. -/
theorem c3_alias_resolution :
    (∀ d canon, aliasGet d canon = resolveSpecModel d canon)
    ∧ aliasGet (.dict [(("latitude"), .int 0)]) ("latitude") = .int 0
    ∧ aliasGet (.dict [(("email"), .str ("")), (("contact_email"), .str ("x@y.com"))]) ("email")
      = .str ("x@y.com")
    ∧ aliasGet (.dict [(("geo"), .dict [(("latitude"), .str (""))])]) ("latitude") = .str ("")
    ∧ aliasGet (.dict [(("contactPoint"), .dict [(("telephone"), .str (" 555 "))])]) ("phone")
      = .str ("555") := by
  refine ⟨fun d canon => ?_, rfl, rfl, rfl, rfl⟩
  cases d with
  | dict kvs =>
    rw [aliasGet, resolveSpecModel, aliasFirst_eq_find]
    cases h : (canon :: fieldAliases canon).find? (fun k => presentPy ((Value.dict kvs).get k)) with
    | none => simp
    | some k => simp
  | none => rfl
  | bool b => rfl
  | int n => rfl
  | float q => rfl
  | str s => rfl
  | list xs => rfl

/-- C6 counterexample: a file whose payload is a mapping containing a
locations list loads as the one-element list holding the container — it is
not unwrapped into the list of location records as the claim states. -/
theorem c6_counterexample :
    loadData ctxC6 ("schemas/locations/a.json") = [locContainer]
    ∧ locContainer.find? ("locations") = some (.list [.dict [(("name"), .str ("A"))]])
    ∧ loadData ctxC6 ("schemas/locations/a.json") ≠ [.dict [(("name"), .str ("A"))]] := by
  refine ⟨rfl, rfl, ?_⟩
  show ¬ ([locContainer] = [.dict [(("name"), .str ("A"))]])
  intro h
  simp [locContainer] at h

/-- C6 (amended): load_data always returns a list and fails soft — missing
path, unreadable file, blank content, unsupported extension and parse
failure each give the empty list; a parsed payload is listified with a
truthy mapping always promoted to a one-element list (never unwrapped);
the locations unwrapping lives in _normalize_records, which returns a list
argument (load_data's output shape) unchanged. -/
theorem c6_loader_soft_fail (ctx : Ctx) (path : String) :
    (ctx.pathExists path = false → loadData ctx path = [])
    ∧ (ctx.readFile path = Option.none → loadData ctx path = [])
    ∧ (∀ raw, ctx.readFile path = some raw → stripStr raw = "" → loadData ctx path = [])
    ∧ (endsWithAny path [(".yaml"), (".yml")] = false → sEndsWith path (".json") = false →
        loadData ctx path = [])
    ∧ (∀ raw, ctx.readFile path = some raw → sEndsWith path (".json") = true →
        endsWithAny path [(".yaml"), (".yml")] = false →
        ctx.parseJson (stripStr raw) = Option.none → loadData ctx path = [])
    ∧ (∀ raw v, ctx.pathExists path = true → ctx.readFile path = some raw → stripStr raw ≠ "" →
        sEndsWith path (".json") = true → endsWithAny path [(".yaml"), (".yml")] = false →
        ctx.parseJson (stripStr raw) = some v → loadData ctx path = pyListWrap v)
    ∧ (∀ kvs, truthy (.dict kvs) = true → pyListWrap (.dict kvs) = [.dict kvs])
    ∧ pyListWrap (.dict []) = []
    ∧ (∀ xs, normalizeRecords (.list xs) = xs)
    ∧ (∀ kvs, normalizeRecords (.dict kvs) =
        (match (Value.dict kvs).get ("locations") with
         | .list xs => xs
         | _ => [Value.dict kvs])) := by
  refine ⟨?_, ?_, ?_, ?_, ?_, ?_, ?_, rfl, fun xs => rfl, fun kvs => rfl⟩
  · intro h
    simp [loadData, h]
  · intro h
    by_cases hp : path = ""
    · simp [loadData, hp]
    · by_cases he : ctx.pathExists path
      · simp [loadData, hp, he, h]
      · simp [loadData, hp, he]
  · intro raw hr hs
    by_cases hp : path = ""
    · simp [loadData, hp]
    · by_cases he : ctx.pathExists path
      · simp [loadData, hp, he, hr, hs]
      · simp [loadData, hp, he]
  · intro h1 h2
    by_cases hp : path = ""
    · simp [loadData, hp]
    · by_cases he : ctx.pathExists path
      · cases hr : ctx.readFile path with
        | none => simp [loadData, hp, he, hr]
        | some raw =>
          by_cases hs : stripStr raw = ""
          · simp [loadData, hp, he, hr, hs]
          · simp [loadData, hp, he, hr, hs, h1, h2]
      · simp [loadData, hp, he]
  · intro raw hr hj hy hn
    by_cases hp : path = ""
    · simp [loadData, hp]
    · by_cases he : ctx.pathExists path
      · by_cases hs : stripStr raw = ""
        · simp [loadData, hp, he, hr, hs]
        · simp [loadData, hp, he, hr, hs, hj, hy, hn]
      · simp [loadData, hp, he]
  · intro raw v he hr hs hj hy hv
    by_cases hp : path = ""
    · subst hp
      exact absurd hj (by decide)
    · simp [loadData, hp, he, hr, hs, hj, hy, hv]
  · intro kvs h
    simp [pyListWrap, h]

/-- C6 witness: the soft-fail theorem applied to the missing-path context
and to the context holding the parsed locations-container file. -/
theorem c6_loader_soft_fail_witness :
    loadData ctxNoSchemas ("schemas/locations/a.json") = []
    ∧ loadData ctxC6 ("schemas/locations/a.json") = pyListWrap locContainer := by
  exact ⟨(c6_loader_soft_fail ctxNoSchemas ("schemas/locations/a.json")).1 rfl,
    (c6_loader_soft_fail ctxC6 ("schemas/locations/a.json")).2.2.2.2.2.1 ("X") locContainer
      rfl rfl (by decide) rfl rfl rfl⟩

/-- Shape of the star display for a clamped rating. -/
theorem starDisplay_spec (r : Int) (h1 : 1 ≤ r) (h2 : r ≤ 5) :
    (starDisplay r).data = List.replicate r.toNat '★' ++ List.replicate (5 - r.toNat) '☆'
    ∧ (starDisplay r).length = 5
    ∧ ((starDisplay r).data.count '★' : Int) = r
    ∧ ((starDisplay r).data.count '☆' : Int) = 5 - r := by
  have hd : (starDisplay r).data
      = List.replicate r.toNat '★' ++ List.replicate ((5 - r).toNat) '☆' := rfl
  have ht : (5 - r).toNat = 5 - r.toNat := by omega
  refine ⟨by rw [hd, ht], ?_, ?_, ?_⟩
  · show (starDisplay r).data.length = 5
    rw [hd]
    simp only [List.length_append, List.length_replicate]
    omega
  · rw [hd]
    rw [List.count_append, List.count_replicate_self,
      List.count_eq_zero_of_not_mem
        (fun hmem => absurd (List.mem_replicate.mp hmem).2 (by decide))]
    omega
  · rw [hd]
    rw [List.count_append, List.count_replicate_self,
      List.count_eq_zero_of_not_mem
        (fun hmem => absurd (List.mem_replicate.mp hmem).2 (by decide))]
    omega

/-- C10: the testimonials star display is always exactly 5 glyphs — the
clamped rating many filled stars followed by the rest empty: the rating is
clamped into 1..5, the display counts match the rating, and a missing or
unparseable rating field defaults to 5. -/
theorem c10_star_rating :
    (∀ rev : Value, 1 ≤ ratingOf rev ∧ ratingOf rev ≤ 5)
    ∧ (∀ rev : Value, (starDisplay (ratingOf rev)).length = 5)
    ∧ (∀ rev : Value, ((starDisplay (ratingOf rev)).data.count '★' : Int) = ratingOf rev
        ∧ ((starDisplay (ratingOf rev)).data.count '☆' : Int) = 5 - ratingOf rev)
    ∧ (∀ rev : Value, (starDisplay (ratingOf rev)).data
        = List.replicate (ratingOf rev).toNat '★' ++ List.replicate (5 - (ratingOf rev).toNat) '☆')
    ∧ (∀ rev : Value, rev.find? ("rating") = Option.none → ratingOf rev = 5)
    ∧ (∀ rev : Value, ∀ v, rev.find? ("rating") = some v → pyIntOpt v = Option.none →
        ratingOf rev = 5) := by
  have hb : ∀ rev : Value, 1 ≤ ratingOf rev ∧ ratingOf rev ≤ 5 := by
    intro rev
    unfold ratingOf
    exact ⟨le_max_left 1 _, max_le (by norm_num) (min_le_left 5 _)⟩
  refine ⟨hb, ?_, ?_, ?_, ?_, ?_⟩
  · intro rev
    exact (starDisplay_spec _ (hb rev).1 (hb rev).2).2.1
  · intro rev
    exact ⟨(starDisplay_spec _ (hb rev).1 (hb rev).2).2.2.1,
      (starDisplay_spec _ (hb rev).1 (hb rev).2).2.2.2⟩
  · intro rev
    exact (starDisplay_spec _ (hb rev).1 (hb rev).2).1
  · intro rev h
    simp [ratingOf, Value.getD, h, pyIntOpt]
  · intro rev v h hv
    simp [ratingOf, Value.getD, h, hv]

/-- C10 witness: the default-rating clauses of the star theorem applied to
a review with no rating field and to one whose rating does not parse. -/
theorem c10_star_rating_witness :
    ratingOf (.dict []) = 5 ∧ ratingOf (.dict [(("rating"), .str ("great"))]) = 5 := by
  exact ⟨c10_star_rating.2.2.2.2.1 (.dict []) rfl,
    c10_star_rating.2.2.2.2.2 (.dict [(("rating"), .str ("great"))]) (.str ("great")) rfl rfl⟩

/-- The de-duplication worker emits pairwise lower-distinct strings, none
of whose lowered forms were already seen. -/
theorem dedupLowerGo_spec (l : List String) : ∀ seen,
    List.Pairwise (fun a b => lowerStr a ≠ lowerStr b) (dedupLowerGo seen l)
    ∧ ∀ x ∈ dedupLowerGo seen l, seen.contains (lowerStr x) = false := by
  induction l with
  | nil => intro seen; simp [dedupLowerGo]
  | cons b bs ih =>
    intro seen
    by_cases h : seen.contains (lowerStr b) = true
    · rw [dedupLowerGo, if_pos h]
      exact ih seen
    · rw [dedupLowerGo, if_neg h]
      have h2 := ih (lowerStr b :: seen)
      refine ⟨List.Pairwise.cons ?_ h2.1, ?_⟩
      · intro y hy
        have := h2.2 y hy
        simp only [List.contains_cons, Bool.or_eq_false_iff, beq_eq_false_iff_ne] at this
        exact fun he => this.1 he.symm
      · intro x hx
        rcases List.mem_cons.mp hx with rfl | hx
        · simpa using h
        · have := h2.2 x hx
          simp only [List.contains_cons, Bool.or_eq_false_iff] at this
          exact this.2

/-- C7: the bullet extractor emits at most 4 bullets, always
case-insensitively de-duplicated in first-seen order; a case-variant
duplicate pair collapses to one bullet, a 10-item features list with a
service-areas list yields 3 features plus the 5-area summary line,
specialties are ignored whenever features exist, and used (up to 3) when
features are absent. -/
theorem c7_bullet_dedup_cap :
    (∀ obj, (bulletPoints obj).length ≤ 4)
    ∧ (∀ obj, List.Pairwise (fun a b => lowerStr a ≠ lowerStr b) (bulletPoints obj))
    ∧ bulletPoints (.dict [(("features"), .list [.str ("Fast service"), .str ("fast service")])])
      = [("Fast service")]
    ∧ bulletPoints (.dict [(("features"), .list [.str ("f1"), .str ("f2"), .str ("f3"),
        .str ("f4"), .str ("f5"), .str ("f6"), .str ("f7"), .str ("f8"), .str ("f9"),
        .str ("f10")]),
        (("service_areas"), .list [.str ("a1"), .str ("a2"), .str ("a3"), .str ("a4"),
          .str ("a5"), .str ("a6")])])
      = [("f1"), ("f2"), ("f3"), ("Service areas: a1, a2, a3, a4, a5")]
    ∧ bulletPoints (.dict [(("features"), .list [.str ("A")]),
        (("specialties"), .list [.str ("B"), .str ("C")])]) = [("A")]
    ∧ bulletPoints (.dict [(("specialties"), .list [.str ("B"), .str ("C")])])
      = [("B"), ("C")] := by
  refine ⟨?_, ?_, rfl, rfl, rfl, rfl⟩
  · intro obj
    unfold bulletPoints
    exact le_trans (List.length_take_le 4 _) (le_refl 4)
  · intro obj
    unfold bulletPoints
    exact ((dedupLowerGo_spec _ []).1).sublist (List.take_sublist 4 _)

/-- A decimal digit is not whitespace. -/
theorem not_pyspace_of_digit (c : Char) (h : isAsciiDigit c = true) : isPySpace c = false := by
  simp only [isAsciiDigit, Bool.and_eq_true, decide_eq_true_eq] at h
  simp only [isPySpace, Bool.or_eq_false_iff, decide_eq_false_iff_not]
  omega

/-- Declarative reading of the "\s*\d+" tail check. -/
theorem digitsTail_iff (cs : List Char) :
    digitsTail cs = true ↔ ∃ sp ds, cs = sp ++ ds ∧ (∀ c ∈ sp, isPySpace c = true)
      ∧ ds ≠ [] ∧ (∀ c ∈ ds, isAsciiDigit c = true) := by
  constructor
  · intro h
    simp only [digitsTail, Bool.and_eq_true, Bool.not_eq_true', List.isEmpty_eq_false,
      List.all_eq_true] at h
    refine ⟨cs.takeWhile isPySpace, cs.dropWhile isPySpace,
      (List.takeWhile_append_dropWhile _ _).symm, ?_, ?_, ?_⟩
    · intro c hc
      exact List.mem_takeWhile_imp hc
    · intro hnil
      rw [hnil] at h
      exact h.1 rfl
    · exact h.2
  · rintro ⟨sp, ds, rfl, hsp, hne, hds⟩
    have hdrop : (sp ++ ds).dropWhile isPySpace = ds := by
      induction sp with
      | nil =>
        cases ds with
        | nil => rfl
        | cons d ds' =>
          simp only [List.nil_append, List.dropWhile_cons]
          rw [not_pyspace_of_digit d (hds d (List.mem_cons_self d ds'))]
          simp
      | cons s sp' ih =>
        simp only [List.cons_append, List.dropWhile_cons,
          hsp s (List.mem_cons_self s sp')]
        exact ih (fun c hc => hsp c (List.mem_cons_of_mem s hc))
    simp only [digitsTail, hdrop, Bool.and_eq_true, Bool.not_eq_true',
      List.isEmpty_eq_false, List.all_eq_true]
    exact ⟨by simpa using hne, hds⟩

/-- Declarative reading of the placeholder-pattern matcher. -/
theorem patternHit_iff (cs : List Char) :
    patternHit cs = true ↔ ∃ w sp ds, w ∈ placeholderWords ∧ cs = (w ++ sp) ++ ds
      ∧ (∀ c ∈ sp, isPySpace c = true) ∧ ds ≠ [] ∧ (∀ c ∈ ds, isAsciiDigit c = true) := by
  rw [patternHit, List.any_eq_true]
  constructor
  · rintro ⟨w, hw, hcond⟩
    rw [Bool.and_eq_true] at hcond
    have htake : cs.take w.length = w := by
      have := hcond.1
      rwa [beq_iff_eq] at this
    have hcs : cs = w ++ cs.drop w.length := by
      conv_lhs => rw [← List.take_append_drop w.length cs]
      rw [htake]
    obtain ⟨sp, ds, hrest, hsp, hne, hds⟩ := (digitsTail_iff _).mp hcond.2
    refine ⟨w, sp, ds, hw, ?_, hsp, hne, hds⟩
    rw [hcs, hrest, List.append_assoc]
  · rintro ⟨w, sp, ds, hw, rfl, hsp, hne, hds⟩
    refine ⟨w, hw, ?_⟩
    rw [Bool.and_eq_true]
    rw [List.append_assoc]
    constructor
    · rw [beq_iff_eq]
      exact List.take_left w (sp ++ ds)
    · rw [List.drop_left]
      exact (digitsTail_iff _).mpr ⟨sp, ds, rfl, hsp, hne, hds⟩

/-- C5: a candidate title is rejected exactly when it is blank, on the
fixed blocklist (case-insensitively), or of the form
"(service|item|entry)<whitespace><digits>"; "Service", "item 3", "" and
"  " are rejected, "Tax Planning" is accepted; for a rejected name with no
keywords the title falls back to the filename-derived title, and with
keywords to the first two keyword entries joined and title-cased. -/
theorem c5_title_placeholder_resolution :
    (∀ s : String, isPlaceholderTitle s = true ↔
      (stripStr s = "" ∨ lowerStr (stripStr s) ∈ placeholderBlock
        ∨ PatternSpec (lowerStr (stripStr s))))
    ∧ isPlaceholderTitle ("Service") = true
    ∧ isPlaceholderTitle ("item 3") = true
    ∧ isPlaceholderTitle ("") = true
    ∧ isPlaceholderTitle ("  ") = true
    ∧ isPlaceholderTitle ("Tax Planning") = false
    ∧ (∀ fname, guessTitle (.dict [(("name"), .str ("Service"))]) fname = titleFromFilename fname)
    ∧ (∀ fname, guessTitle (.dict [(("name"), .str ("item 3"))]) fname = titleFromFilename fname)
    ∧ (∀ fname, guessTitle (.dict [(("name"), .str ("  "))]) fname = titleFromFilename fname)
    ∧ (∀ fname, guessTitle (.dict []) fname = titleFromFilename fname)
    ∧ guessTitle (.dict [(("name"), .str ("Tax Planning"))]) ("schemas/services/x.json")
      = ("Tax Planning")
    ∧ guessTitle (.dict [(("name"), .str ("Service")),
        (("keywords"), .list [.str ("tax planning"), .str ("audit"), .str ("x")])])
        ("schemas/services/f.json")
      = ("Tax Planning / Audit") := by
  refine ⟨?_, rfl, rfl, rfl, rfl, rfl, fun fname => rfl, fun fname => rfl, fun fname => rfl,
    fun fname => rfl, rfl, rfl⟩
  intro s
  unfold isPlaceholderTitle
  by_cases hs : stripStr s = ""
  · simp [hs]
  · rw [if_neg hs]
    rw [Bool.or_eq_true]
    constructor
    · rintro (h | h)
      · exact Or.inr (Or.inl (List.elem_iff.mp h))
      · obtain ⟨w, sp, ds, hw, hdec, hsp, hne, hds⟩ := (patternHit_iff _).mp h
        exact Or.inr (Or.inr ⟨w, sp, ds, hw, by rw [hdec, List.append_assoc], hsp, hne, hds⟩)
    · rintro (h | h | h)
      · exact absurd h hs
      · exact Or.inl (List.elem_iff.mpr h)
      · obtain ⟨w, sp, ds, hw, hdec, hsp, hne, hds⟩ := h
        exact Or.inr ((patternHit_iff _).mpr
          ⟨w, sp, ds, hw, by rw [hdec, List.append_assoc], hsp, hne, hds⟩)

/-- A generator result that is not a SystemExit. -/
def notExit (r : GenResult) : Prop := ∀ c, r ≠ .exit c

/-- The shared write step never raises SystemExit. -/
theorem writePage_notExit (ctx : Ctx) (t : PyTime) (f ti c0 : String) :
    notExit (writePage ctx t f ti c0) := by
  intro c
  unfold writePage
  cases h : generatePage ctx t ti c0 <;> simp

/-- The placeholder write never raises SystemExit. -/
theorem writePlaceholder_notExit (ctx : Ctx) (t : PyTime) (f ti m : String) :
    notExit (writePlaceholder ctx t f ti m) := by
  intro c
  unfold writePlaceholder
  cases h : generatePage ctx t ti (("<p>") ++ escapeHtmlStr m ++ ("</p>")) <;> simp

/-- The contact assembler never raises SystemExit. -/
theorem contact_notExit (ctx : Ctx) (t : PyTime) : notExit (generateContactPage ctx t) := by
  intro c
  unfold generateContactPage
  split
  · exact writePlaceholder_notExit ctx t _ _ _ c
  · dsimp only
    split
    · exact writePlaceholder_notExit ctx t _ _ _ c
    · exact writePage_notExit ctx t _ _ _ c

/-- The services assembler never raises SystemExit. -/
theorem services_notExit (ctx : Ctx) (t : PyTime) : notExit (generateServicesPage ctx t) := by
  intro c
  unfold generateServicesPage
  split
  · exact writePlaceholder_notExit ctx t _ _ _ c
  · dsimp only
    split
    · exact writePlaceholder_notExit ctx t _ _ _ c
    · exact writePage_notExit ctx t _ _ _ c

/-- The testimonials assembler never raises SystemExit. -/
theorem testimonials_notExit (ctx : Ctx) (t : PyTime) :
    notExit (generateTestimonialsPage ctx t) := by
  intro c
  unfold generateTestimonialsPage
  exact writePage_notExit ctx t _ _ _ c

/-- The FAQ assembler never raises SystemExit. -/
theorem faq_notExit (ctx : Ctx) (t : PyTime) : notExit (generateFaqPage ctx t) := by
  intro c
  unfold generateFaqPage
  split
  · exact writePlaceholder_notExit ctx t _ _ _ c
  · dsimp only
    split
    · simp
    · split
      · exact writePlaceholder_notExit ctx t _ _ _ c
      · exact writePage_notExit ctx t _ _ _ c

/-- The help assembler never raises SystemExit. -/
theorem help_notExit (ctx : Ctx) (t : PyTime) : notExit (generateHelpArticlesPage ctx t) := by
  intro c
  unfold generateHelpArticlesPage
  split
  · exact writePlaceholder_notExit ctx t _ _ _ c
  · dsimp only
    split
    · exact writePlaceholder_notExit ctx t _ _ _ c
    · split
      · simp
      · exact writePage_notExit ctx t _ _ _ c

/-- The about assembler never raises SystemExit. -/
theorem about_notExit (ctx : Ctx) (t : PyTime) : notExit (generateAboutPage ctx t) := by
  intro c
  unfold generateAboutPage
  dsimp only
  split
  · exact writePage_notExit ctx t _ _ _ c
  · simp

/-- The home-page assembler raises SystemExit only when GITHUB_REPOSITORY
is unset or empty, and then with code 1. -/
theorem index_exit_iff (ctx : Ctx) (t : PyTime) (c : Int) :
    generateIndexPage ctx t = .exit c →
      (ctx.env ("GITHUB_REPOSITORY")).getD ("") = "" ∧ c = 1 := by
  intro h
  unfold generateIndexPage at h
  cases horg : loadOrgMeta ctx with
  | error e =>
    rw [horg] at h
    simp at h
  | ok org =>
    rw [horg] at h
    dsimp only at h
    by_cases hrs : (ctx.env ("GITHUB_REPOSITORY")).getD ("") = ""
    · rw [if_pos hrs] at h
      refine ⟨hrs, ?_⟩
      injection h with h'
      omega
    · rw [if_neg hrs] at h
      exact absurd h (writePage_notExit ctx t _ _ _ c)

/-- With the repository variable set, the home-page assembler never raises
SystemExit. -/
theorem index_notExit (ctx : Ctx) (t : PyTime)
    (henv : (ctx.env ("GITHUB_REPOSITORY")).getD ("") ≠ "") :
    notExit (generateIndexPage ctx t) := by
  intro c h
  exact henv (index_exit_iff ctx t c h).1

/-- When no generator on the list raises SystemExit, the orchestrator loop
finishes with exit code 0. -/
theorem runGenerators_zero (ctx : Ctx) (t : PyTime) :
    ∀ gens acc, (∀ g ∈ gens, notExit (g ctx t)) →
      (runGenerators ctx t acc gens).1 = 0 := by
  intro gens
  induction gens with
  | nil => intro acc _; rfl
  | cons g gs ih =>
    intro acc h
    rw [runGenerators]
    cases hg : g ctx t with
    | ok w r => exact ih _ (fun g' hg' => h g' (List.mem_cons_of_mem g hg'))
    | exc w => exact ih _ (fun g' hg' => h g' (List.mem_cons_of_mem g hg'))
    | exit c => exact absurd hg (h g (List.mem_cons_self g gs) c)

/-- C2 counterexample: with schemas/ present but GITHUB_REPOSITORY unset,
the run exits with status 1 — a non-zero exit that the claim says can only
happen when the schemas directory is missing. -/
theorem c2_counterexample :
    ctxC1NoEnv.pathExists ("schemas") = true ∧ (mainBuild ctxC1NoEnv tZero).1 = 1 := by
  exact ⟨rfl, rfl⟩

/-- C2 (amended): the run exits 1 when schemas/ is missing; it exits 0
whenever schemas/ exists and GITHUB_REPOSITORY is set non-empty (every
missing sub-resource degrading inside the assemblers); and a non-zero exit
implies the schemas directory was missing or the repository variable was
unset or empty. -/
theorem c2_exit_status (ctx : Ctx) (t : PyTime) :
    (ctx.pathExists ("schemas") = false → mainBuild ctx t = (1, []))
    ∧ (ctx.pathExists ("schemas") = true →
        (ctx.env ("GITHUB_REPOSITORY")).getD ("") ≠ "" → (mainBuild ctx t).1 = 0)
    ∧ ((mainBuild ctx t).1 ≠ 0 →
        ctx.pathExists ("schemas") = false ∨ (ctx.env ("GITHUB_REPOSITORY")).getD ("") = "") := by
  have hall : (ctx.env ("GITHUB_REPOSITORY")).getD ("") ≠ "" →
      ∀ g ∈ pageGenerators, notExit (g ctx t) := by
    intro henv g hg
    simp only [pageGenerators, List.mem_cons, List.mem_singleton] at hg
    rcases hg with rfl | rfl | rfl | rfl | rfl | rfl | rfl | h
    · exact index_notExit ctx t henv
    · exact about_notExit ctx t
    · exact services_notExit ctx t
    · exact testimonials_notExit ctx t
    · exact faq_notExit ctx t
    · exact help_notExit ctx t
    · exact contact_notExit ctx t
    · exact absurd h (List.not_mem_nil g)
  refine ⟨?_, ?_, ?_⟩
  · intro h
    unfold mainBuild
    rw [h]
    rfl
  · intro he henv
    unfold mainBuild
    rw [he]
    exact runGenerators_zero ctx t pageGenerators [] (hall henv)
  · intro hne
    by_cases he : ctx.pathExists ("schemas") = true
    · by_cases henv : (ctx.env ("GITHUB_REPOSITORY")).getD ("") = ""
      · exact Or.inr henv
      · exact absurd (by
          unfold mainBuild
          rw [he]
          exact runGenerators_zero ctx t pageGenerators [] (hall henv)) hne
    · exact Or.inl (by simpa using he)

/-- C2 witness: the exit-status theorem applied to a run with schemas/
missing and to the empty-subdirectory run with the repository variable
set. -/
theorem c2_exit_status_witness :
    mainBuild ctxNoSchemas tZero = (1, []) ∧ (mainBuild ctxC1 tZero).1 = 0 := by
  exact ⟨(c2_exit_status ctxNoSchemas tZero).1 rfl,
    (c2_exit_status ctxC1 tZero).2.1 rfl (by decide)⟩

/-- Replace a page's footer timestamp. -/
def setTime (p : Page) (t : PyTime) : Page :=
  { p with time := t }

/-- Normalise the timestamps of a write list to the fixed time. -/
def clearWrites (w : List (String × Page)) : List (String × Page) :=
  w.map (fun np => (np.1, setTime np.2 tZero))

/-- Normalise the timestamps inside a generator result. -/
def clearRes : GenResult → GenResult
  | .ok w r => .ok (clearWrites w) r
  | .exc w => .exc (clearWrites w)
  | .exit c => .exit c

/-- Timestamp-normalised ite congruence for generator results. -/
theorem ite_time {c : Prop} [Decidable c] (a1 b1 a2 b2 : GenResult)
    (ha : clearRes a1 = clearRes a2) (hb : clearRes b1 = clearRes b2) :
    clearRes (if c then a1 else b1) = clearRes (if c then a2 else b2) := by
  by_cases h : c
  · rw [if_pos h, if_pos h]
    exact ha
  · rw [if_neg h, if_neg h]
    exact hb

/-- The write step depends on the clock only through the stored
timestamp. -/
theorem writePage_time (ctx : Ctx) (t1 t2 : PyTime) (f ti c0 : String) :
    clearRes (writePage ctx t1 f ti c0) = clearRes (writePage ctx t2 f ti c0) := by
  unfold writePage
  cases h : loadOrgMeta ctx <;>
    simp [generatePage, h, clearRes, clearWrites, setTime]

/-- The placeholder write depends on the clock only through the stored
timestamp. -/
theorem writePlaceholder_time (ctx : Ctx) (t1 t2 : PyTime) (f ti m : String) :
    clearRes (writePlaceholder ctx t1 f ti m) = clearRes (writePlaceholder ctx t2 f ti m) := by
  unfold writePlaceholder
  cases h : loadOrgMeta ctx <;>
    simp [generatePage, h, clearRes, clearWrites, setTime]

/-- The contact assembler is clock-independent up to timestamps. -/
theorem contact_time (ctx : Ctx) (t1 t2 : PyTime) :
    clearRes (generateContactPage ctx t1) = clearRes (generateContactPage ctx t2) := by
  unfold generateContactPage
  dsimp only
  exact ite_time _ _ _ _ (writePlaceholder_time ctx t1 t2 _ _ _)
    (ite_time _ _ _ _ (writePlaceholder_time ctx t1 t2 _ _ _) (writePage_time ctx t1 t2 _ _ _))

/-- The services assembler is clock-independent up to timestamps. -/
theorem services_time (ctx : Ctx) (t1 t2 : PyTime) :
    clearRes (generateServicesPage ctx t1) = clearRes (generateServicesPage ctx t2) := by
  unfold generateServicesPage
  dsimp only
  exact ite_time _ _ _ _ (writePlaceholder_time ctx t1 t2 _ _ _)
    (ite_time _ _ _ _ (writePlaceholder_time ctx t1 t2 _ _ _) (writePage_time ctx t1 t2 _ _ _))

/-- The testimonials assembler is clock-independent up to timestamps. -/
theorem testimonials_time (ctx : Ctx) (t1 t2 : PyTime) :
    clearRes (generateTestimonialsPage ctx t1) = clearRes (generateTestimonialsPage ctx t2) := by
  unfold generateTestimonialsPage
  dsimp only
  exact writePage_time ctx t1 t2 _ _ _

/-- The FAQ assembler is clock-independent up to timestamps. -/
theorem faq_time (ctx : Ctx) (t1 t2 : PyTime) :
    clearRes (generateFaqPage ctx t1) = clearRes (generateFaqPage ctx t2) := by
  unfold generateFaqPage
  dsimp only
  refine ite_time _ _ _ _ (writePlaceholder_time ctx t1 t2 _ _ _) ?_
  cases hf : faqItems ctx ((ctx.listDir ("schemas/faqs")).filter
      (fun f => endsWithAny f [(".json"), (".yaml"), (".yml")])) with
  | error e => rfl
  | ok items =>
    exact ite_time _ _ _ _ (writePlaceholder_time ctx t1 t2 _ _ _) (writePage_time ctx t1 t2 _ _ _)

/-- The help assembler is clock-independent up to timestamps. -/
theorem help_time (ctx : Ctx) (t1 t2 : PyTime) :
    clearRes (generateHelpArticlesPage ctx t1) = clearRes (generateHelpArticlesPage ctx t2) := by
  unfold generateHelpArticlesPage
  dsimp only
  refine ite_time _ _ _ _ (writePlaceholder_time ctx t1 t2 _ _ _) ?_
  refine ite_time _ _ _ _ (writePlaceholder_time ctx t1 t2 _ _ _) ?_
  cases hm : ((ctx.listDir ("schemas/help-articles")).filter (fun f => sEndsWith f (".md"))).mapM
      (fun f => ctx.readFile (("schemas/help-articles/") ++ f)) with
  | none => rfl
  | some contents => exact writePage_time ctx t1 t2 _ _ _

/-- The about assembler is clock-independent up to timestamps. -/
theorem about_time (ctx : Ctx) (t1 t2 : PyTime) :
    clearRes (generateAboutPage ctx t1) = clearRes (generateAboutPage ctx t2) := by
  unfold generateAboutPage
  dsimp only
  split
  · exact writePage_time ctx t1 t2 _ _ _
  · rfl

/-- The home-page assembler is clock-independent up to timestamps. -/
theorem index_time (ctx : Ctx) (t1 t2 : PyTime) :
    clearRes (generateIndexPage ctx t1) = clearRes (generateIndexPage ctx t2) := by
  unfold generateIndexPage
  cases h : loadOrgMeta ctx with
  | error e => rfl
  | ok org =>
    dsimp only
    exact ite_time _ _ _ _ rfl (writePage_time ctx t1 t2 _ _ _)

/-- Pointwise clock-independence of the generators lifts to the
orchestrator loop. -/
theorem runGenerators_time (ctx : Ctx) (t1 t2 : PyTime) :
    ∀ gens acc1 acc2, (∀ g ∈ gens, clearRes (g ctx t1) = clearRes (g ctx t2)) →
      clearWrites acc1 = clearWrites acc2 →
      (runGenerators ctx t1 acc1 gens).1 = (runGenerators ctx t2 acc2 gens).1
      ∧ clearWrites (runGenerators ctx t1 acc1 gens).2
        = clearWrites (runGenerators ctx t2 acc2 gens).2 := by
  intro gens
  induction gens with
  | nil =>
    intro acc1 acc2 _ ha
    exact ⟨rfl, ha⟩
  | cons g gs ih =>
    intro acc1 acc2 hg ha
    have hgg := hg g (List.mem_cons_self g gs)
    have hrest : ∀ g' ∈ gs, clearRes (g' ctx t1) = clearRes (g' ctx t2) :=
      fun g' hg' => hg g' (List.mem_cons_of_mem g hg')
    rw [runGenerators, runGenerators]
    cases h1 : g ctx t1 with
    | ok w1 r1 =>
      cases h2 : g ctx t2 with
      | ok w2 r2 =>
        rw [h1, h2] at hgg
        simp only [clearRes, GenResult.ok.injEq] at hgg
        refine ih _ _ hrest ?_
        simp only [clearWrites, List.map_append] at *
        rw [ha, hgg.1]
      | exc w2 => rw [h1, h2] at hgg; simp [clearRes] at hgg
      | exit c2 => rw [h1, h2] at hgg; simp [clearRes] at hgg
    | exc w1 =>
      cases h2 : g ctx t2 with
      | ok w2 r2 => rw [h1, h2] at hgg; simp [clearRes] at hgg
      | exc w2 =>
        rw [h1, h2] at hgg
        simp only [clearRes, GenResult.exc.injEq] at hgg
        refine ih _ _ hrest ?_
        simp only [clearWrites, List.map_append] at *
        rw [ha, hgg]
      | exit c2 => rw [h1, h2] at hgg; simp [clearRes] at hgg
    | exit c1 =>
      cases h2 : g ctx t2 with
      | ok w2 r2 => rw [h1, h2] at hgg; simp [clearRes] at hgg
      | exc w2 => rw [h1, h2] at hgg; simp [clearRes] at hgg
      | exit c2 =>
        rw [h1, h2] at hgg
        simp only [clearRes, GenResult.exit.injEq] at hgg
        exact ⟨by rw [hgg], ha⟩

/-- C9: two runs of the orchestrator over the same file system,
environment and parsers produce the same exit status and byte-identical
rendered output files once the embedded footer timestamp is normalised —
the whole pipeline is a function of the on-disk records and environment
plus the clock, and the clock only reaches the footer timestamp. -/
theorem c9_rebuild_determinism (ctx : Ctx) (t1 t2 : PyTime) :
    (mainBuild ctx t1).1 = (mainBuild ctx t2).1
    ∧ ((mainBuild ctx t1).2.map (fun np => (np.1, renderPage (setTime np.2 tZero))))
      = ((mainBuild ctx t2).2.map (fun np => (np.1, renderPage (setTime np.2 tZero)))) := by
  have hall : ∀ g ∈ pageGenerators, clearRes (g ctx t1) = clearRes (g ctx t2) := by
    intro g hg
    simp only [pageGenerators, List.mem_cons, List.mem_singleton] at hg
    rcases hg with rfl | rfl | rfl | rfl | rfl | rfl | rfl | h
    · exact index_time ctx t1 t2
    · exact about_time ctx t1 t2
    · exact services_time ctx t1 t2
    · exact testimonials_time ctx t1 t2
    · exact faq_time ctx t1 t2
    · exact help_time ctx t1 t2
    · exact contact_time ctx t1 t2
    · exact absurd h (List.not_mem_nil g)
  unfold mainBuild
  by_cases he : (!(ctx.pathExists ("schemas"))) = true
  · rw [if_pos he, if_pos he]
    exact ⟨rfl, rfl⟩
  · rw [if_neg he, if_neg he]
    obtain ⟨hfst, hsnd⟩ := runGenerators_time ctx t1 t2 pageGenerators [] [] hall rfl
    refine ⟨hfst, ?_⟩
    have hmap : ∀ w : List (String × Page),
        w.map (fun np => (np.1, renderPage (setTime np.2 tZero)))
        = (clearWrites w).map (fun np => (np.1, renderPage np.2)) := by
      intro w
      rw [clearWrites, List.map_map]
      rfl
    rw [hmap, hmap, hsnd]

/-- C1 counterexample: against the very content root of the claim (schemas
present, every subdirectory absent) but with GITHUB_REPOSITORY unset, the
run aborts with exit status 1 before writing any page — sys.exit(1) in the
home-page assembler escapes the orchestrator's Exception handler. -/
theorem c1_counterexample :
    ctxC1NoEnv.pathExists ("schemas") = true
    ∧ (mainBuild ctxC1NoEnv tZero).1 = 1
    ∧ (mainBuild ctxC1NoEnv tZero).2 = [] := by
  exact ⟨rfl, rfl, rfl⟩

set_option maxHeartbeats 2000000 in
/-- C1 (amended): with the schemas directory present, every content
subdirectory absent and GITHUB_REPOSITORY set, one full run writes all
seven output files in order — the five data-driven pages carrying their
designated placeholder texts (the home and about pages their synthesized
content) — and exits with status zero, whatever the clock reads. -/
theorem c1_always_emit (t : PyTime) :
    (mainBuild ctxC1 t).1 = 0
    ∧ (mainBuild ctxC1 t).2.map Prod.fst
      = [("index.html"), ("about.html"), ("services.html"), ("testimonials.html"),
         ("faqs.html"), ("help.html"), ("contact.html")]
    ∧ ((mainBuild ctxC1 t).2.map (fun w => w.2.content)).get? 2
      = some ("<p>No services have been published yet.</p>")
    ∧ ((mainBuild ctxC1 t).2.map (fun w => w.2.content)).get? 3
      = some (("<div class=") ++ sqt ++ ("card") ++ sqt
          ++ ("><p>No testimonials have been published yet. Check back soon.</p></div>"))
    ∧ ((mainBuild ctxC1 t).2.map (fun w => w.2.content)).get? 4
      = some ("<p>No FAQs have been published yet.</p>")
    ∧ ((mainBuild ctxC1 t).2.map (fun w => w.2.content)).get? 5
      = some ("<p>No help articles have been published yet.</p>")
    ∧ ((mainBuild ctxC1 t).2.map (fun w => w.2.content)).get? 6
      = some ("<p>Contact details are not available yet.</p>") := by
  exact ⟨rfl, rfl, rfl, rfl, rfl, rfl, rfl⟩
